import Mathlib

/-!
Verification development for the image-service repository: a shallow
embedding of the provider parameter validators (aliyun, liblibai), the
request builder, the polling loops, the result materialization loop, the
request signer and the artifact locator, together with theorems settling
the specification claims.

Python dictionaries are modelled as ordered association lists with unique
keys (`Dict`); Python values as the JSON-like inductive `Value`.
-/

namespace ImageService

/-- JSON-like runtime values, as held in the Python parameter dictionaries. -/
inductive Value where
  | str (s : String)
  | int (n : Int)
  | float (q : Rat)
  | bool (b : Bool)
  | obj (fields : List (String × Value))
  | list (elems : List Value)
  | none

/-- A Python dict: ordered association list (insertion order, unique keys). -/
abbrev Dict := List (String × Value)

/-- `d[k]` lookup: first binding of `k` (dicts built by `dset` have unique keys). -/
def dget : Dict → String → Option Value
  | [], _ => Option.none
  | (k', v) :: rest, k => if k' = k then some v else dget rest k

/-- `d.get(k, dflt)`. -/
def dgetD (d : Dict) (k : String) (dflt : Value) : Value :=
  (dget d k).getD dflt

/-- `k in d`. -/
def dmem (k : String) (d : Dict) : Bool :=
  (dget d k).isSome

/-- `d[k] = v`: replace the binding of `k` in place, or append it. -/
def dset : Dict → String → Value → Dict
  | [], k, v => [(k, v)]
  | (k', v') :: rest, k, v =>
      if k' = k then (k, v) :: rest else (k', v') :: dset rest k v

/-- Python truthiness of `d.get(k)`-style results. -/
def truthy : Option Value → Bool
  | Option.none => false
  | some (Value.str s) => !s.isEmpty
  | some (Value.int n) => n != 0
  | some (Value.float q) => q != 0
  | some (Value.bool b) => b
  | some (Value.obj f) => !f.isEmpty
  | some (Value.list l) => !l.isEmpty
  | some Value.none => false

/-- Truncation of a rational toward zero, as Python `int(float)` does. -/
def ratTrunc (q : Rat) : Int :=
  if 0 ≤ q.num then (q.num.natAbs / q.den : Nat) else -((q.num.natAbs / q.den : Nat) : Int)

/-- Python `int(x)`: identity on ints, bools 0/1, truncation of floats,
parse of (trimmed) numeric strings; raises `ValueError`/`TypeError` otherwise. -/
def pyInt : Value → Except String Int
  | Value.int n => Except.ok n
  | Value.bool b => Except.ok (if b then 1 else 0)
  | Value.float q => Except.ok (ratTrunc q)
  | Value.str s =>
      match s.trim.toInt? with
      | some n => Except.ok n
      | Option.none => Except.error ("invalid literal for int() with base 10: " ++ s)
  | _ => Except.error "int() argument must be a string, a bytes-like object or a real number"

/-- The `.get("aliyun", default)` fallback list of supported aliyun models. -/
def aliyunDefaultModels : List String :=
  ["wanx2.1-t2i-turbo", "wanx2.1-t2i-plus", "wanx2.0-t2i-turbo"]

/-- Error message of the unsupported-model `ValueError` (both providers). -/
def unsupportedModelMsg (model : String) (supported : List String) : String :=
  "Model \x27" ++ model ++ "\x27 not supported. Supported models: " ++
    String.intercalate ", " supported

/-- `if k not in d: d[k] = v` — the default-filling idiom both validators use. -/
def setDefault (d : Dict) (k : String) (v : Value) : Dict :=
  if dmem k d = false then dset d k v else d

/-- Size block of `AliyunProvider.validate_parameters` (aliyun.py lines 59-64):
re-assign the present value, or default to `"1024*1024"`. -/
def aliyunStepSize (v : Dict) : Dict :=
  if dmem "size" v then dset v "size" (dgetD v "size" Value.none)
  else dset v "size" (Value.str "1024*1024")

/-- Count block (aliyun.py lines 66-70): `int`-coerce and clamp into [1, 4],
or default to 1. -/
def aliyunStepN (v : Dict) : Except String Dict :=
  if dmem "n" v then
    (pyInt (dgetD v "n" Value.none)).map (fun n => dset v "n" (Value.int (min (max n 1) 4)))
  else Except.ok (dset v "n" (Value.int 1))

/-- Reference-image block (aliyun.py lines 80-86): fill the strength and mode
defaults only when `ref_img` is present. -/
def aliyunStepRef (v : Dict) : Dict :=
  if dmem "ref_img" v then
    setDefault (setDefault v "ref_strength" (Value.float 1)) "ref_mode" (Value.str "repaint")
  else v

/-- Seed block (aliyun.py lines 88-90): `int`-coerce the seed when present. -/
def aliyunStepSeed (v : Dict) : Except String Dict :=
  if dmem "seed" v then
    (pyInt (dgetD v "seed" Value.none)).map (fun s => dset v "seed" (Value.int s))
  else Except.ok v

/-- `AliyunProvider.validate_parameters` (aliyun.py lines 31-92): membership
check, required `prompt`, top-level copy, then default filling / reshaping of
the recognized keys on the copy, in source order. -/
def aliyunValidate (supported : List String) (model : String) (parameters : Dict) :
    Except String Dict :=
  if supported.contains model = false then
    Except.error (unsupportedModelMsg model supported)
  else if dmem "prompt" parameters = false then
    Except.error "Parameter \x27prompt\x27 is required"
  else
    -- validated = parameters.copy(); validated["model"] = model
    match aliyunStepN (aliyunStepSize (dset parameters "model" (Value.str model))) with
    | Except.error e => Except.error e
    | Except.ok v2 =>
        aliyunStepSeed (aliyunStepRef
          (setDefault (setDefault v2 "negative_prompt" (Value.str "")) "style"
            (Value.str "<auto>")))

/-- The `.get("liblibai", default)` fallback list of supported liblibai models. -/
def liblibDefaultModels : List String :=
  ["star-3-alpha-t2i", "star-3-alpha-i2i", "liblib-custom"]

/-- Reading `validated["generateParams"]` as a dict; a non-dict value makes the
Python membership tests fail with a TypeError. -/
def getObj : Value → Except String Dict
  | Value.obj fields => Except.ok fields
  | _ => Except.error "TypeError: generateParams is not a dict"

/-- Reading `validated.get("baseModelType", "").lower()`: absent key defaults to
the empty string; a non-string value has no `.lower()` (AttributeError). -/
def baseModelTypeLower (validated : Dict) : Except String String :=
  match dget validated "baseModelType" with
  | Option.none => Except.ok ""
  | some (Value.str s) => Except.ok s.toLower
  | some _ => Except.error "AttributeError: object has no attribute lower"

/-- Star-3 Alpha text-to-image fixed template. -/
def star3T2iTemplate : String := "5d7e67009b344550bc1aa6ccbfa1d7f4"

/-- Star-3 Alpha image-to-image fixed template. -/
def star3I2iTemplate : String := "07e00af4fc464c7ab55ff906f8acf1b7"

/-- F.1 image-to-image custom-checkpoint template. -/
def customF1I2iTemplate : String := "63b72710c9574457ba303d9d9b8df8bd"

/-- 1.5/XL image-to-image custom-checkpoint template. -/
def customI2iTemplate : String := "9c7d531dc75f476aa833b3d452b8f7ad"

/-- F.1 text-to-image custom-checkpoint template. -/
def customF1T2iTemplate : String := "6f7c4652458d4802969f8d089cf5b91f"

/-- 1.5/XL text-to-image custom-checkpoint template. -/
def customT2iTemplate : String := "e10adc3949ba59abbe56e057f20f883e"

/-- The aspect-ratio default of the Star-3 Alpha text-to-image branch
(liblibai.py lines 106-108): applied only when neither `aspectRatio` nor
`imageSize` is already present. -/
def liblibStepAspect (gp : Dict) : Dict :=
  if dmem "aspectRatio" gp = false && dmem "imageSize" gp = false then
    dset gp "aspectRatio" (Value.str "portrait")
  else gp

/-- The `templateUuid` selection of the `liblib-custom` branch (liblibai.py
lines 191-210): only when `templateUuid` is absent, pick one of the four fixed
templates from the base-model family and the presence of a source image in
`generateParams`. -/
def liblibCustomTemplate (validated gp : Dict) : Except String Dict :=
  if dmem "templateUuid" validated = false then
    match baseModelTypeLower validated with
    | Except.error e => Except.error e
    | Except.ok bmt =>
      let isF1 := bmt = "f.1" || bmt = "f1"
      let tpl :=
        if dmem "sourceImage" gp then
          if isF1 then customF1I2iTemplate else customI2iTemplate
        else
          if isF1 then customF1T2iTemplate else customT2iTemplate
      Except.ok (dset validated "templateUuid" (Value.str tpl))
  else Except.ok validated

/-- The `generateParams` default-filling of the `liblib-custom` branch
(liblibai.py lines 162-189), in source order: checkPointId and prompt from the
top level, then sampler=15, steps=20, cfgScale=7, width=768, height=1024,
imgCount=1, seed=-1 when absent. -/
def liblibCustomGp (validated gp0 : Dict) : Dict :=
  setDefault (setDefault (setDefault (setDefault (setDefault (setDefault (setDefault
    (setDefault (setDefault gp0
      "checkPointId" (dgetD validated "checkPointId" Value.none))
      "prompt" (dgetD validated "prompt" Value.none))
      "sampler" (Value.int 15)) "steps" (Value.int 20)) "cfgScale" (Value.int 7))
      "width" (Value.int 768)) "height" (Value.int 1024)) "imgCount" (Value.int 1))
      "seed" (Value.int (-1))

/-- `LiblibAIProvider.validate_parameters` (liblibai.py lines 70-212):
membership check, top-level copy plus `model` key, then one branch per model
name filling `generateParams` defaults and the fixed `templateUuid`. -/
def liblibValidate (supported : List String) (model : String) (parameters : Dict) :
    Except String Dict :=
  if supported.contains model = false then
    Except.error (unsupportedModelMsg model supported)
  else
    -- validated = parameters.copy(); validated["model"] = model
    let validated := dset parameters "model" (Value.str model)
    if model = "star-3-alpha-t2i" then
      if dmem "prompt" validated = false then
        Except.error "Parameter \x27prompt\x27 is required for Star-3 Alpha text-to-image"
      else
        let validated := setDefault validated "generateParams" (Value.obj [])
        match getObj (dgetD validated "generateParams" Value.none) with
        | Except.error e => Except.error e
        | Except.ok gp0 =>
          let gp := setDefault gp0 "prompt" (dgetD validated "prompt" Value.none)
          let gp := setDefault (liblibStepAspect gp) "imgCount" (Value.int 1)
          let validated := dset validated "generateParams" (Value.obj gp)
          Except.ok (setDefault validated "templateUuid" (Value.str star3T2iTemplate))
    else if model = "star-3-alpha-i2i" then
      if dmem "prompt" validated = false then
        Except.error "Parameter \x27prompt\x27 is required for Star-3 Alpha image-to-image"
      else if dmem "sourceImage" validated = false then
        Except.error "Parameter \x27sourceImage\x27 is required for Star-3 Alpha image-to-image"
      else
        let validated := setDefault validated "generateParams" (Value.obj [])
        match getObj (dgetD validated "generateParams" Value.none) with
        | Except.error e => Except.error e
        | Except.ok gp0 =>
          let gp := setDefault gp0 "prompt" (dgetD validated "prompt" Value.none)
          let gp := setDefault gp "sourceImage" (dgetD validated "sourceImage" Value.none)
          let gp := setDefault gp "width" (Value.int 768)
          let gp := setDefault gp "height" (Value.int 1024)
          let gp := setDefault gp "imgCount" (Value.int 1)
          let validated := dset validated "generateParams" (Value.obj gp)
          Except.ok (setDefault validated "templateUuid" (Value.str star3I2iTemplate))
    else if model = "liblib-custom" then
      if dmem "checkPointId" validated = false then
        Except.error "Parameter \x27checkPointId\x27 is required for LiblibAI custom model"
      else if dmem "prompt" validated = false then
        Except.error "Parameter \x27prompt\x27 is required for LiblibAI custom model"
      else
        let validated := setDefault validated "generateParams" (Value.obj [])
        match getObj (dgetD validated "generateParams" Value.none) with
        | Except.error e => Except.error e
        | Except.ok gp0 =>
          let gp := liblibCustomGp validated gp0
          let validated := dset validated "generateParams" (Value.obj gp)
          liblibCustomTemplate validated gp
    else
      Except.ok validated

/-- The aliyun vendor request body: `{"model": .., "input": {..}, "parameters": {..}}`. -/
structure AliyunRequest where
  model : Value
  input : Dict
  parameters : Dict

/-- Keys that never go into the `parameters` part of the aliyun request body. -/
def aliyunExcludeKeys : List String := ["model", "prompt", "negative_prompt", "ref_img"]

/-- Specially handled keys copied into `parameters` when present. -/
def aliyunSpecialParams : List String := ["size", "n", "style", "seed", "ref_strength", "ref_mode"]

/-- Request-body construction from `AliyunProvider.call_model` (aliyun.py lines
152-190): prompt (plus optional negative prompt / reference image) under
`input`, the special keys and every remaining non-excluded key under
`parameters`. -/
def aliyunBuildRequestData (validated : Dict) : AliyunRequest :=
  let input0 : Dict := [("prompt", dgetD validated "prompt" Value.none)]
  let input1 :=
    if truthy (dget validated "negative_prompt") then
      dset input0 "negative_prompt" (dgetD validated "negative_prompt" Value.none)
    else input0
  let input2 :=
    if truthy (dget validated "ref_img") then
      dset input1 "ref_image" (dgetD validated "ref_img" Value.none)
    else input1
  let ps0 := aliyunSpecialParams.foldl
    (fun acc name =>
      if dmem name validated then dset acc name (dgetD validated name Value.none) else acc) []
  let ps1 := validated.foldl
    (fun acc kv =>
      if (aliyunExcludeKeys.contains kv.1 || aliyunSpecialParams.contains kv.1) = false then
        dset acc kv.1 kv.2
      else acc) ps0
  { model := dgetD validated "model" Value.none, input := input2, parameters := ps1 }

/-- The validation-then-build prefix of `AliyunProvider.call_model`: everything
that happens before the HTTP POST is issued. -/
def aliyunPrepareRequest (supported : List String) (model : String) (parameters : Dict) :
    Except String AliyunRequest :=
  (aliyunValidate supported model parameters).map aliyunBuildRequestData

/-- The liblibai vendor request body: `{"templateUuid": .., "generateParams": ..}`. -/
structure LiblibRequest where
  templateUuid : Value
  generateParams : Value

/-- The validation-then-build prefix of `LiblibAIProvider.call_model` (liblibai.py
lines 256-289): everything that happens before the HTTP POST is issued. -/
def liblibPrepareRequest (supported : List String) (model : String) (parameters : Dict) :
    Except String LiblibRequest :=
  (liblibValidate supported model parameters).map
    (fun validated =>
      { templateUuid := dgetD validated "templateUuid" Value.none,
        generateParams := dgetD validated "generateParams" Value.none })

/-- `max_retries = 120`: the polling budget of both providers. -/
def maxRetries : Nat := 120

/-- `retry_interval = 15`: time units slept before each status query. -/
def retryInterval : Nat := 15

/-- Outcome of a polling loop, instrumented with the number of status queries
issued and the total time slept. -/
inductive PollResult (σ : Type) where
  | succeeded (queries : Nat) (slept : Nat) (s : σ)
  | vendorFailed (queries : Nat) (slept : Nat) (s : σ)
  | vendorError (queries : Nat) (slept : Nat)
  | timeout (queries : Nat) (slept : Nat)

/-- Aliyun statuses treated as terminal success (aliyun.py line 257). -/
def aliyunSuccessStatuses : List String := ["SUCCEEDED", "COMPLETE", "SUCCESS"]

/-- Aliyun statuses treated as terminal failure (aliyun.py line 261). -/
def aliyunFailureStatuses : List String := ["FAILED", "CANCELLED", "ERROR"]

/-- The polling loop of `AliyunProvider.call_model` (aliyun.py lines 228-268):
sleep 15 units, issue one status query, stop on a terminal status, otherwise
loop; raising the timeout `ValueError` when the budget is exhausted. The i-th
issued query observes `status i`. -/
def aliyunPollAux (status : Nat → String) : Nat → Nat → Nat → PollResult String
  | 0, queries, slept => PollResult.timeout queries slept
  | Nat.succ fuel, queries, slept =>
      let slept' := slept + retryInterval
      let s := status queries
      if s ∈ aliyunSuccessStatuses then PollResult.succeeded (queries + 1) slept' s
      else if s ∈ aliyunFailureStatuses then PollResult.vendorFailed (queries + 1) slept' s
      else aliyunPollAux status fuel (queries + 1) slept'

/-- Entry point of the aliyun polling loop. -/
def aliyunPoll (status : Nat → String) : PollResult String :=
  aliyunPollAux status maxRetries 0 0

/-- The polling loop of `LiblibAIProvider.call_model` (liblibai.py lines
329-377): sleep 15 units, issue one signed status query; a response with
`code != 0` raises immediately; `generateStatus` 5 is terminal success, 6 or 7
terminal failure; the timeout `ValueError` is raised when the budget is
exhausted. The i-th issued query observes `resp i = (code, generateStatus)`. -/
def liblibPollAux (resp : Nat → Int × Int) : Nat → Nat → Nat → PollResult Int
  | 0, queries, slept => PollResult.timeout queries slept
  | Nat.succ fuel, queries, slept =>
      let slept' := slept + retryInterval
      let code := (resp queries).1
      let gs := (resp queries).2
      if code ≠ 0 then PollResult.vendorError (queries + 1) slept'
      else if gs = 5 then PollResult.succeeded (queries + 1) slept' gs
      else if gs = 6 ∨ gs = 7 then PollResult.vendorFailed (queries + 1) slept' gs
      else liblibPollAux resp fuel (queries + 1) slept'

/-- The keys of a dict, in order. -/
def dkeys (d : Dict) : List String := d.map Prod.fst

/-- The ten keys provider A's normalization and request builder recognize. -/
def aliyunRecognizedKeys : List String :=
  ["model", "prompt", "negative_prompt", "ref_img", "size", "n", "style", "seed",
   "ref_strength", "ref_mode"]

/-- A vendor status the aliyun loop treats as terminal (Prop form). -/
def AliyunTerminal (s : String) : Prop :=
  s ∈ aliyunSuccessStatuses ∨ s ∈ aliyunFailureStatuses

instance (s : String) : Decidable (AliyunTerminal s) := by
  unfold AliyunTerminal; infer_instance

/-- A vendor status code the liblibai loop treats as terminal (Prop form). -/
def LiblibTerminal (gs : Int) : Prop :=
  gs = 5 ∨ gs = 6 ∨ gs = 7

instance (gs : Int) : Decidable (LiblibTerminal gs) := by
  unfold LiblibTerminal; infer_instance

/-- Entry point of the liblibai polling loop. -/
def liblibPoll (resp : Nat → Int × Int) : PollResult Int :=
  liblibPollAux resp maxRetries 0 0

/-- One entry of the `images` list of a formatted aliyun response. -/
structure Artifact where
  index : Nat
  url : Value
  local_path : String
  seed : Value

/-- One entry of the `images` list of a formatted liblibai response. -/
structure LiblibArtifact where
  index : Nat
  url : Value
  local_path : String
  seed : Value
  auditStatus : Value

/-- The image loop of `AliyunProvider._format_response_and_download_images`
(aliyun.py lines 324-344): entries with a falsy `url` are skipped (`continue`);
otherwise one download is attempted into a freshly named file under the aliyun
images directory, a failed download leaving the artifact's `local_path` empty.
`dlOk i` tells whether the download attempted at enumerate-index `i` succeeds,
`fname i` is the generated unique file name. -/
def aliyunFormatImagesAux (dataDir : String) (dlOk : Nat → Bool) (fname : Nat → String) :
    Nat → List Dict → List Artifact
  | _, [] => []
  | i, result :: rest =>
      let image_url := dgetD result "url" (Value.str "")
      if truthy (some image_url) = false then
        aliyunFormatImagesAux dataDir dlOk fname (i + 1) rest
      else
        let local_path := dataDir ++ "/images/aliyun/" ++ fname i
        let saved_path := if dlOk i then local_path else ""
        { index := i, url := image_url, local_path := saved_path,
          seed := dgetD result "seed" Value.none } ::
          aliyunFormatImagesAux dataDir dlOk fname (i + 1) rest

/-- Entry point of the aliyun image-materialization loop. -/
def aliyunFormatImages (dataDir : String) (dlOk : Nat → Bool) (fname : Nat → String)
    (results : List Dict) : List Artifact :=
  aliyunFormatImagesAux dataDir dlOk fname 0 results

/-- The image loop of `LiblibAIProvider._format_response_and_download_images`
(liblibai.py lines 420-443): same shape as the aliyun one, reading `imageUrl`,
writing under the liblibai images directory and keeping `auditStatus`. -/
def liblibFormatImagesAux (baseDir : String) (dlOk : Nat → Bool) (fname : Nat → String) :
    Nat → List Dict → List LiblibArtifact
  | _, [] => []
  | i, image_data :: rest =>
      let image_url := dgetD image_data "imageUrl" (Value.str "")
      if truthy (some image_url) = false then
        liblibFormatImagesAux baseDir dlOk fname (i + 1) rest
      else
        let local_path := baseDir ++ "/data/images/liblibai/" ++ fname i
        let saved_path := if dlOk i then local_path else ""
        { index := i, url := image_url, local_path := saved_path,
          seed := dgetD image_data "seed" Value.none,
          auditStatus := dgetD image_data "auditStatus" Value.none } ::
          liblibFormatImagesAux baseDir dlOk fname (i + 1) rest

/-- Entry point of the liblibai image-materialization loop. -/
def liblibFormatImages (baseDir : String) (dlOk : Nat → Bool) (fname : Nat → String)
    (images : List Dict) : List LiblibArtifact :=
  liblibFormatImagesAux baseDir dlOk fname 0 images

/-- The URL-safe base64 alphabet (RFC 4648 §5), as used by
`base64.urlsafe_b64encode`. -/
def b64UrlAlphabet : List Char :=
  "ABCDEFGHIJKLMNOPQRSTUVWXYZabcdefghijklmnopqrstuvwxyz0123456789-_".toList

/-- The base64 character of a 6-bit group. -/
def b64Char (n : Nat) : Char := b64UrlAlphabet.getD n 'A'

/-- URL-safe base64 of a byte list, with padding. -/
def b64UrlEncode : List Nat → List Char
  | b1 :: b2 :: b3 :: rest =>
      let x1 := b1 % 256
      let x2 := b2 % 256
      let x3 := b3 % 256
      b64Char (x1 / 4) :: b64Char ((x1 % 4) * 16 + x2 / 16) ::
        b64Char ((x2 % 16) * 4 + x3 / 64) :: b64Char (x3 % 64) :: b64UrlEncode rest
  | [b1, b2] =>
      let x1 := b1 % 256
      let x2 := b2 % 256
      [b64Char (x1 / 4), b64Char ((x1 % 4) * 16 + x2 / 16), b64Char ((x2 % 16) * 4), '=']
  | [b1] =>
      let x1 := b1 % 256
      [b64Char (x1 / 4), b64Char ((x1 % 4) * 16), '=', '=']
  | [] => []

/-- `bytes.rstrip(b"=")`: drop the trailing padding characters. -/
def rstripEq (l : List Char) : List Char :=
  (l.reverse.dropWhile (fun ch => ch = '=')).reverse

/-- The four signature parameters returned by `generate_signature`. -/
structure SignatureParams where
  accessKey : String
  signature : String
  timestamp : String
  signatureNonce : String
deriving DecidableEq

/-- `LiblibAIProvider.generate_signature` (liblibai.py lines 34-68). The
keyed-MAC primitive `hmacSha1` (Python's `hmac.new(key, msg, sha1).digest()`,
a stdlib function outside this repository) and the freshness tokens
(`time.time()` millisecond timestamp, `uuid4` nonce) are oracle inputs. -/
def generate_signature (hmacSha1 : String → String → List Nat)
    (access_key secret_key timestamp nonce uri : String) :
    Except String SignatureParams :=
  if access_key.isEmpty || secret_key.isEmpty then
    Except.error "LiblibAI API keys not configured"
  else
    -- content = '&'.join((uri, timestamp, signature_nonce))
    let content := uri ++ "&" ++ timestamp ++ "&" ++ nonce
    let digest := hmacSha1 secret_key content
    let signature := String.mk (rstripEq (b64UrlEncode digest))
    Except.ok
      { accessKey := access_key, signature := signature,
        timestamp := timestamp, signatureNonce := nonce }

/-- A file path under the data directory, as a list of components. -/
abbrev DataPath := List String

/-- `Path.exists` against the set `fs` of files under the data directory. -/
def pathExists (fs : List DataPath) (p : DataPath) : Bool :=
  fs.contains p

/-- `data_dir.glob("**/" + file_name)` for a plain file name: every file under
the data directory whose last component is `file_name`, in enumeration order. -/
def globMatches (fs : List DataPath) (file_name : String) : List DataPath :=
  fs.filter (fun p => p.getLast? = some file_name)

/-- `download_file` (download.py lines 26-53), reduced to the artifact-locating
logic: flat `images` directory first, then the `aliyun` and `liblibai`
subdirectories, then the recursive glob; 404 when nothing matches. -/
def download_file (fs : List DataPath) (file_name : String) : Except Nat DataPath :=
  let file_path : DataPath := ["images", file_name]
  if pathExists fs file_path then Except.ok file_path
  else
    let file_path :=
      if pathExists fs ["images", "aliyun", file_name] then ["images", "aliyun", file_name]
      else if pathExists fs ["images", "liblibai", file_name] then ["images", "liblibai", file_name]
      else file_path
    if pathExists fs file_path then Except.ok file_path
    else
      match globMatches fs file_name with
      | [] => Except.error 404
      | m :: _ => Except.ok m

/-- A heap of dict objects, for distinguishing in-place mutation from copies;
addresses are list indices. -/
abbrev Heap := List Dict

/-- `h[a][k] = v`: in-place item assignment on the object at address `a`. -/
def heapSet (h : Heap) (a : Nat) (k : String) (v : Value) : Heap :=
  h.set a (dset (h.getD a []) k v)

/-- Size block of the heap-level validator: one in-place item assignment on
the object at `va` (aliyun.py lines 59-64). -/
def heapStepSize (h : Heap) (va : Nat) : Heap :=
  if dmem "size" (h.getD va []) then
    heapSet h va "size" (dgetD (h.getD va []) "size" Value.none)
  else heapSet h va "size" (Value.str "1024*1024")

/-- Count block of the heap-level validator (aliyun.py lines 66-70); the
`ValueError` of `int()` leaves the heap as it was. -/
def heapStepN (h : Heap) (va : Nat) : Heap × Except String Unit :=
  if dmem "n" (h.getD va []) then
    match pyInt (dgetD (h.getD va []) "n" Value.none) with
    | Except.error e => (h, Except.error e)
    | Except.ok n => (heapSet h va "n" (Value.int (min (max n 1) 4)), Except.ok ())
  else (heapSet h va "n" (Value.int 1), Except.ok ())

/-- `if k not in h[va]: h[va][k] = v`, at the heap level. -/
def heapSetDefault (h : Heap) (va : Nat) (k : String) (v : Value) : Heap :=
  if dmem k (h.getD va []) = false then heapSet h va k v else h

/-- Reference-image block of the heap-level validator (aliyun.py lines 80-86). -/
def heapStepRef (h : Heap) (va : Nat) : Heap :=
  if dmem "ref_img" (h.getD va []) then
    heapSetDefault (heapSetDefault h va "ref_strength" (Value.float 1)) va
      "ref_mode" (Value.str "repaint")
  else h

/-- Seed block of the heap-level validator (aliyun.py lines 88-90). -/
def heapStepSeed (h : Heap) (va : Nat) : Heap × Except String Unit :=
  if dmem "seed" (h.getD va []) then
    match pyInt (dgetD (h.getD va []) "seed" Value.none) with
    | Except.error e => (h, Except.error e)
    | Except.ok s => (heapSet h va "seed" (Value.int s), Except.ok ())
  else (h, Except.ok ())

/-- `AliyunProvider.validate_parameters` again, at the level of an explicit
object heap: the caller's dict lives at address `pa`; `validated =
parameters.copy()` allocates a fresh object at the end of the heap and every
subsequent item assignment targets that fresh address. Returns the final heap
together with the result (the address of `validated`, or the error). -/
def aliyunValidateHeap (supported : List String) (model : String) (h : Heap) (pa : Nat) :
    Heap × Except String Nat :=
  if supported.contains model = false then
    (h, Except.error (unsupportedModelMsg model supported))
  else if dmem "prompt" (h.getD pa []) = false then
    (h, Except.error "Parameter \x27prompt\x27 is required")
  else
    let va := h.length
    let h1 := h ++ [h.getD pa []]
    let h2 := heapSet h1 va "model" (Value.str model)
    let h3 := heapStepSize h2 va
    match heapStepN h3 va with
    | (h4, Except.error e) => (h4, Except.error e)
    | (h4, Except.ok _) =>
      let h5 := heapSetDefault h4 va "negative_prompt" (Value.str "")
      let h6 := heapSetDefault h5 va "style" (Value.str "<auto>")
      let h7 := heapStepRef h6 va
      match heapStepSeed h7 va with
      | (h8, Except.error e) => (h8, Except.error e)
      | (h8, Except.ok _) => (h8, Except.ok va)

/-- Number of status queries a polling run issued. -/
def PollResult.queries : PollResult σ → Nat
  | PollResult.succeeded q _ _ => q
  | PollResult.vendorFailed q _ _ => q
  | PollResult.vendorError q _ => q
  | PollResult.timeout q _ => q

/-- Total time a polling run slept. -/
def PollResult.slept : PollResult σ → Nat
  | PollResult.succeeded _ t _ => t
  | PollResult.vendorFailed _ t _ => t
  | PollResult.vendorError _ t => t
  | PollResult.timeout _ t => t

theorem aliyunPollAux_queries_le (status : Nat → String) :
    ∀ fuel q s, (aliyunPollAux status fuel q s).queries ≤ q + fuel := by
  intro fuel
  induction fuel with
  | zero => intro q s; simp only [aliyunPollAux, PollResult.queries]; omega
  | succ fuel ih =>
      intro q s
      simp only [aliyunPollAux]
      split
      · simp only [PollResult.queries]; omega
      · split
        · simp only [PollResult.queries]; omega
        · have := ih (q + 1) (s + retryInterval)
          omega

theorem aliyunPollAux_timeout (status : Nat → String) :
    ∀ fuel q s, (∀ j, q ≤ j → j < q + fuel → ¬ AliyunTerminal (status j)) →
      aliyunPollAux status fuel q s = PollResult.timeout (q + fuel) (s + retryInterval * fuel) := by
  intro fuel
  induction fuel with
  | zero => intro q s _; simp [aliyunPollAux]
  | succ fuel ih =>
      intro q s hnt
      have hq : ¬ AliyunTerminal (status q) := hnt q (Nat.le_refl q) (by omega)
      rw [AliyunTerminal, not_or] at hq
      simp only [aliyunPollAux]
      rw [if_neg hq.1, if_neg hq.2]
      rw [ih (q + 1) (s + retryInterval) (fun j h1 h2 => hnt j (by omega) (by omega))]
      have h1 : q + 1 + fuel = q + (fuel + 1) := by omega
      have h2 : s + retryInterval + retryInterval * fuel = s + retryInterval * (fuel + 1) := by
        ring
      rw [h1, h2]

theorem aliyunPollAux_terminal (status : Nat → String) :
    ∀ fuel q s k, q ≤ k → k < q + fuel → AliyunTerminal (status k) →
      (∀ j, q ≤ j → j < k → ¬ AliyunTerminal (status j)) →
      aliyunPollAux status fuel q s =
        (if status k ∈ aliyunSuccessStatuses then
          PollResult.succeeded (k + 1) (s + retryInterval * (k + 1 - q)) (status k)
        else
          PollResult.vendorFailed (k + 1) (s + retryInterval * (k + 1 - q)) (status k)) := by
  intro fuel
  induction fuel with
  | zero => intro q s k h1 h2; omega
  | succ fuel ih =>
      intro q s k h1 h2 hterm hmin
      by_cases hqk : q = k
      · subst hqk
        simp only [aliyunPollAux]
        have hrange : q + 1 - q = 1 := by omega
        by_cases hs : status q ∈ aliyunSuccessStatuses
        · rw [if_pos hs, if_pos hs, hrange, mul_one]
        · have hf : status q ∈ aliyunFailureStatuses := hterm.resolve_left hs
          rw [if_neg hs, if_pos hf, if_neg hs, hrange, mul_one]
      · have hqk' : q < k := by omega
        have hq : ¬ AliyunTerminal (status q) := hmin q (Nat.le_refl q) hqk'
        rw [AliyunTerminal, not_or] at hq
        simp only [aliyunPollAux]
        rw [if_neg hq.1, if_neg hq.2]
        rw [ih (q + 1) (s + retryInterval) k (by omega) (by omega) hterm
          (fun j ha hb => hmin j (by omega) hb)]
        have harith : s + retryInterval + retryInterval * (k + 1 - (q + 1)) =
            s + retryInterval * (k + 1 - q) := by
          have h : k + 1 - q = (k + 1 - (q + 1)) + 1 := by omega
          rw [h]; ring
        rw [harith]

theorem liblibPollAux_queries_le (resp : Nat → Int × Int) :
    ∀ fuel q s, (liblibPollAux resp fuel q s).queries ≤ q + fuel := by
  intro fuel
  induction fuel with
  | zero => intro q s; simp only [liblibPollAux, PollResult.queries]; omega
  | succ fuel ih =>
      intro q s
      simp only [liblibPollAux]
      split
      · simp only [PollResult.queries]; omega
      · split
        · simp only [PollResult.queries]; omega
        · split
          · simp only [PollResult.queries]; omega
          · have := ih (q + 1) (s + retryInterval)
            omega

theorem liblibPollAux_timeout (resp : Nat → Int × Int) :
    ∀ fuel q s, (∀ j, q ≤ j → j < q + fuel → (resp j).1 = 0 ∧ ¬ LiblibTerminal (resp j).2) →
      liblibPollAux resp fuel q s = PollResult.timeout (q + fuel) (s + retryInterval * fuel) := by
  intro fuel
  induction fuel with
  | zero => intro q s _; simp [liblibPollAux]
  | succ fuel ih =>
      intro q s hnt
      have hq := hnt q (Nat.le_refl q) (by omega)
      have hc : ¬ (resp q).1 ≠ 0 := by simp [hq.1]
      have hq2 := hq.2
      rw [LiblibTerminal, not_or, not_or] at hq2
      simp only [liblibPollAux]
      rw [if_neg hc, if_neg hq2.1, if_neg (not_or.mpr hq2.2)]
      rw [ih (q + 1) (s + retryInterval) (fun j h1 h2 => hnt j (by omega) (by omega))]
      have h1 : q + 1 + fuel = q + (fuel + 1) := by omega
      have h2 : s + retryInterval + retryInterval * fuel = s + retryInterval * (fuel + 1) := by
        ring
      rw [h1, h2]

theorem liblibPollAux_terminal (resp : Nat → Int × Int) :
    ∀ fuel q s k, q ≤ k → k < q + fuel →
      (∀ j, q ≤ j → j ≤ k → (resp j).1 = 0) →
      LiblibTerminal (resp k).2 →
      (∀ j, q ≤ j → j < k → ¬ LiblibTerminal (resp j).2) →
      liblibPollAux resp fuel q s =
        (if (resp k).2 = 5 then
          PollResult.succeeded (k + 1) (s + retryInterval * (k + 1 - q)) (resp k).2
        else
          PollResult.vendorFailed (k + 1) (s + retryInterval * (k + 1 - q)) (resp k).2) := by
  intro fuel
  induction fuel with
  | zero => intro q s k h1 h2; omega
  | succ fuel ih =>
      intro q s k h1 h2 hcode hterm hmin
      by_cases hqk : q = k
      · subst hqk
        have hc : ¬ (resp q).1 ≠ 0 := by simp [hcode q (Nat.le_refl q) (Nat.le_refl q)]
        simp only [liblibPollAux]
        have hrange : q + 1 - q = 1 := by omega
        by_cases h5 : (resp q).2 = 5
        · rw [if_neg hc, if_pos h5, if_pos h5, hrange, mul_one]
        · have h67 : (resp q).2 = 6 ∨ (resp q).2 = 7 := hterm.resolve_left h5
          rw [if_neg hc, if_neg h5, if_pos h67, if_neg h5, hrange, mul_one]
      · have hqk' : q < k := by omega
        have hq : ¬ LiblibTerminal (resp q).2 := hmin q (Nat.le_refl q) hqk'
        rw [LiblibTerminal, not_or, not_or] at hq
        have hc : ¬ (resp q).1 ≠ 0 := by simp [hcode q (Nat.le_refl q) (by omega)]
        simp only [liblibPollAux]
        rw [if_neg hc, if_neg hq.1, if_neg (not_or.mpr hq.2)]
        rw [ih (q + 1) (s + retryInterval) k (by omega) (by omega)
          (fun j ha hb => hcode j (by omega) hb) hterm
          (fun j ha hb => hmin j (by omega) hb)]
        have harith : s + retryInterval + retryInterval * (k + 1 - (q + 1)) =
            s + retryInterval * (k + 1 - q) := by
          have h : k + 1 - q = (k + 1 - (q + 1)) + 1 := by omega
          rw [h]; ring
        rw [harith]

theorem dget_dset_self (d : Dict) (k : String) (v : Value) :
    dget (dset d k v) k = some v := by
  induction d with
  | nil => simp [dset, dget]
  | cons hd tl ih =>
      simp only [dset]
      split
      · simp [dget]
      · next h => simp only [dget, if_neg h, ih]

theorem dget_dset_ne (d : Dict) {k k' : String} (v : Value) (h : k' ≠ k) :
    dget (dset d k' v) k = dget d k := by
  induction d with
  | nil => simp [dset, dget, h]
  | cons hd tl ih =>
      simp only [dset]
      by_cases heq : hd.1 = k'
      · rw [if_pos heq]
        have hk : ¬ hd.1 = k := by rw [heq]; exact h
        simp only [dget, if_neg h, if_neg hk]
      · rw [if_neg heq]
        simp only [dget, ih]

theorem dmem_dset_self (d : Dict) (k : String) (v : Value) :
    dmem k (dset d k v) = true := by
  simp [dmem, dget_dset_self]

theorem dmem_dset_ne (d : Dict) {k k' : String} (v : Value) (h : k' ≠ k) :
    dmem k (dset d k' v) = dmem k d := by
  simp [dmem, dget_dset_ne d v h]

theorem dgetD_dset_self (d : Dict) (k : String) (v dflt : Value) :
    dgetD (dset d k v) k dflt = v := by
  simp [dgetD, dget_dset_self]

theorem dgetD_dset_ne (d : Dict) {k k' : String} (v dflt : Value) (h : k' ≠ k) :
    dgetD (dset d k' v) k dflt = dgetD d k dflt := by
  simp [dgetD, dget_dset_ne d v h]

/-- C1: for every job, each provider's polling loop issues at most 120 status
queries on a fixed 15-unit cadence; the first observed terminal vendor status
(success-equivalent or failure-equivalent) ends the loop immediately with the
corresponding outcome after exactly `k + 1` queries; and 120 consecutive
non-terminal statuses produce the timeout error, not a success and not a
vendor failure. -/
theorem claim1_poller_budget :
    (∀ status : Nat → String, (aliyunPoll status).queries ≤ maxRetries) ∧
    (∀ resp : Nat → Int × Int, (liblibPoll resp).queries ≤ maxRetries) ∧
    (∀ status : Nat → String, ∀ k, k < maxRetries → AliyunTerminal (status k) →
      (∀ j, j < k → ¬ AliyunTerminal (status j)) →
      aliyunPoll status =
        (if status k ∈ aliyunSuccessStatuses then
          PollResult.succeeded (k + 1) (retryInterval * (k + 1)) (status k)
        else
          PollResult.vendorFailed (k + 1) (retryInterval * (k + 1)) (status k))) ∧
    (∀ resp : Nat → Int × Int, ∀ k, k < maxRetries → (∀ j, j ≤ k → (resp j).1 = 0) →
      LiblibTerminal (resp k).2 → (∀ j, j < k → ¬ LiblibTerminal (resp j).2) →
      liblibPoll resp =
        (if (resp k).2 = 5 then
          PollResult.succeeded (k + 1) (retryInterval * (k + 1)) (resp k).2
        else
          PollResult.vendorFailed (k + 1) (retryInterval * (k + 1)) (resp k).2)) ∧
    (∀ status : Nat → String, (∀ i, i < maxRetries → ¬ AliyunTerminal (status i)) →
      aliyunPoll status = PollResult.timeout maxRetries (retryInterval * maxRetries)) ∧
    (∀ resp : Nat → Int × Int,
      (∀ i, i < maxRetries → (resp i).1 = 0 ∧ ¬ LiblibTerminal (resp i).2) →
      liblibPoll resp = PollResult.timeout maxRetries (retryInterval * maxRetries)) := by
  refine ⟨?_, ?_, ?_, ?_, ?_, ?_⟩
  · intro status
    have := aliyunPollAux_queries_le status maxRetries 0 0
    simpa [aliyunPoll] using this
  · intro resp
    have := liblibPollAux_queries_le resp maxRetries 0 0
    simpa [liblibPoll] using this
  · intro status k hk hterm hmin
    have := aliyunPollAux_terminal status maxRetries 0 0 k (Nat.zero_le k) (by omega) hterm
      (fun j _ hj => hmin j hj)
    simpa [aliyunPoll] using this
  · intro resp k hk hcode hterm hmin
    have := liblibPollAux_terminal resp maxRetries 0 0 k (Nat.zero_le k) (by omega)
      (fun j _ hj => hcode j hj) hterm (fun j _ hj => hmin j hj)
    simpa [liblibPoll] using this
  · intro status hnt
    have := aliyunPollAux_timeout status maxRetries 0 0 (fun j _ hj => hnt j (by omega))
    simpa [aliyunPoll] using this
  · intro resp hnt
    have := liblibPollAux_timeout resp maxRetries 0 0 (fun j _ hj => hnt j (by omega))
    simpa [liblibPoll] using this

/-- Witness for C1: an immediately successful aliyun job is resolved after one
query, and a liblibai job that never leaves status 2 times out after exactly
120 queries and 1800 slept units. -/
theorem claim1_poller_budget_witness :
    aliyunPoll (fun _ => "SUCCEEDED") = PollResult.succeeded 1 15 "SUCCEEDED" ∧
    liblibPoll (fun _ => (0, 2)) = PollResult.timeout 120 1800 := by
  constructor
  · have h := claim1_poller_budget.2.2.1 (fun _ => "SUCCEEDED") 0 (by decide)
      (by decide) (fun j hj => absurd hj (by omega))
    rw [if_pos (by decide)] at h
    simpa [retryInterval] using h
  · have h2 : ¬ LiblibTerminal 2 := by decide
    have h := claim1_poller_budget.2.2.2.2.2 (fun _ => ((0 : Int), (2 : Int)))
      (fun i _ => ⟨rfl, h2⟩)
    simpa [maxRetries, retryInterval] using h

theorem dget_setDefault_ne (d : Dict) {k k' : String} (v : Value) (h : k' ≠ k) :
    dget (setDefault d k' v) k = dget d k := by
  unfold setDefault
  split
  · exact dget_dset_ne d v h
  · rfl

theorem dmem_setDefault_ne (d : Dict) {k k' : String} (v : Value) (h : k' ≠ k) :
    dmem k (setDefault d k' v) = dmem k d := by
  simp [dmem, dget_setDefault_ne d v h]

theorem dget_setDefault_absent (d : Dict) (k : String) (v : Value) (h : dmem k d = false) :
    dget (setDefault d k v) k = some v := by
  unfold setDefault
  rw [if_pos h]
  exact dget_dset_self d k v

theorem dget_setDefault_present (d : Dict) (k : String) (v : Value) (h : dmem k d = true) :
    dget (setDefault d k v) k = dget d k := by
  unfold setDefault
  rw [h]
  simp

theorem dget_stepSize_ne (d : Dict) {k : String} (h : k ≠ "size") :
    dget (aliyunStepSize d) k = dget d k := by
  unfold aliyunStepSize
  split <;> exact dget_dset_ne d _ (Ne.symm h)

theorem dmem_stepSize_ne (d : Dict) {k : String} (h : k ≠ "size") :
    dmem k (aliyunStepSize d) = dmem k d := by
  simp [dmem, dget_stepSize_ne d h]

theorem dget_stepSize_absent (d : Dict) (h : dmem "size" d = false) :
    dget (aliyunStepSize d) "size" = some (Value.str "1024*1024") := by
  unfold aliyunStepSize
  rw [h]
  simp [dget_dset_self]

theorem dget_stepSize_present (d : Dict) (h : dmem "size" d = true) :
    dget (aliyunStepSize d) "size" = dget d "size" := by
  unfold aliyunStepSize
  rw [h]
  simp only [if_true]
  rw [dget_dset_self]
  rw [dmem] at h
  rcases ho : dget d "size" with _ | v
  · rw [ho] at h; simp at h
  · simp [dgetD, ho]

theorem aliyunStepN_absent (d : Dict) (h : dmem "n" d = false) :
    aliyunStepN d = Except.ok (dset d "n" (Value.int 1)) := by
  unfold aliyunStepN
  rw [h]
  simp

theorem aliyunStepN_present (d : Dict) (v : Value) (h : dget d "n" = some v) :
    aliyunStepN d =
      (pyInt v).map (fun n => dset d "n" (Value.int (min (max n 1) 4))) := by
  unfold aliyunStepN
  have hm : dmem "n" d = true := by simp [dmem, h]
  rw [hm]
  simp [dgetD, h]

theorem aliyunStepN_ok_ne (d w : Dict) {k : String} (hok : aliyunStepN d = Except.ok w)
    (h : k ≠ "n") : dget w k = dget d k := by
  unfold aliyunStepN at hok
  split at hok
  · rcases hpy : pyInt (dgetD d "n" Value.none) with e | nv <;> rw [hpy] at hok
    · simp [Except.map] at hok
    · simp only [Except.map] at hok
      cases hok
      exact dget_dset_ne d _ (Ne.symm h)
  · cases hok
    exact dget_dset_ne d _ (Ne.symm h)

theorem aliyunStepN_ok_mem_ne (d w : Dict) {k : String} (hok : aliyunStepN d = Except.ok w)
    (h : k ≠ "n") : dmem k w = dmem k d := by
  simp [dmem, aliyunStepN_ok_ne d w hok h]

theorem aliyunStepN_error (d : Dict) (e : String) (h : aliyunStepN d = Except.error e) :
    ∃ v, pyInt v = Except.error e := by
  unfold aliyunStepN at h
  split at h
  · rcases hpy : pyInt (dgetD d "n" Value.none) with e' | nv <;> rw [hpy] at h
    · refine ⟨dgetD d "n" Value.none, ?_⟩
      rw [hpy]
      simp only [Except.map] at h
      cases h
      rfl
    · simp [Except.map] at h
  · cases h

theorem aliyunStepSeed_absent (d : Dict) (h : dmem "seed" d = false) :
    aliyunStepSeed d = Except.ok d := by
  unfold aliyunStepSeed
  rw [h]
  simp

theorem aliyunStepSeed_present (d : Dict) (v : Value) (h : dget d "seed" = some v) :
    aliyunStepSeed d = (pyInt v).map (fun s => dset d "seed" (Value.int s)) := by
  unfold aliyunStepSeed
  have hm : dmem "seed" d = true := by simp [dmem, h]
  rw [hm]
  simp [dgetD, h]

theorem aliyunStepSeed_ok_ne (d w : Dict) {k : String} (hok : aliyunStepSeed d = Except.ok w)
    (h : k ≠ "seed") : dget w k = dget d k := by
  unfold aliyunStepSeed at hok
  split at hok
  · rcases hpy : pyInt (dgetD d "seed" Value.none) with e | sv <;> rw [hpy] at hok
    · simp [Except.map] at hok
    · simp only [Except.map] at hok
      cases hok
      exact dget_dset_ne d _ (Ne.symm h)
  · cases hok
    rfl

theorem aliyunStepSeed_ok_mem_ne (d w : Dict) {k : String} (hok : aliyunStepSeed d = Except.ok w)
    (h : k ≠ "seed") : dmem k w = dmem k d := by
  simp [dmem, aliyunStepSeed_ok_ne d w hok h]

theorem aliyunStepSeed_error (d : Dict) (e : String) (h : aliyunStepSeed d = Except.error e) :
    ∃ v, pyInt v = Except.error e := by
  unfold aliyunStepSeed at h
  split at h
  · rcases hpy : pyInt (dgetD d "seed" Value.none) with e' | sv <;> rw [hpy] at h
    · refine ⟨dgetD d "seed" Value.none, ?_⟩
      rw [hpy]
      simp only [Except.map] at h
      cases h
      rfl
    · simp [Except.map] at h
  · cases h

theorem dget_stepRef_ne (d : Dict) {k : String} (h1 : k ≠ "ref_strength")
    (h2 : k ≠ "ref_mode") : dget (aliyunStepRef d) k = dget d k := by
  unfold aliyunStepRef
  split
  · rw [dget_setDefault_ne _ _ (Ne.symm h2), dget_setDefault_ne _ _ (Ne.symm h1)]
  · rfl

theorem dmem_stepRef_ne (d : Dict) {k : String} (h1 : k ≠ "ref_strength")
    (h2 : k ≠ "ref_mode") : dmem k (aliyunStepRef d) = dmem k d := by
  simp [dmem, dget_stepRef_ne d h1 h2]

theorem dget_stepRef_strength_absent (d : Dict) (h : dmem "ref_img" d = true)
    (hrs : dmem "ref_strength" d = false) :
    dget (aliyunStepRef d) "ref_strength" = some (Value.float 1) := by
  unfold aliyunStepRef
  rw [h]
  simp only [if_true]
  rw [dget_setDefault_ne _ _ (by decide)]
  exact dget_setDefault_absent d _ _ hrs

theorem dget_stepRef_mode_absent (d : Dict) (h : dmem "ref_img" d = true)
    (hrm : dmem "ref_mode" d = false) :
    dget (aliyunStepRef d) "ref_mode" = some (Value.str "repaint") := by
  unfold aliyunStepRef
  rw [h]
  simp only [if_true]
  exact dget_setDefault_absent _ _ _ (by rw [dmem_setDefault_ne _ _ (by decide)]; exact hrm)

theorem dget_stepRef_noimg (d : Dict) (h : dmem "ref_img" d = false) :
    aliyunStepRef d = d := by
  unfold aliyunStepRef
  rw [h]
  simp

/-- Decomposition of a successful aliyun validation into its two fallible
steps. -/
theorem aliyunValidate_ok_decompose (supported : List String) (model : String)
    (params d : Dict) (hs : supported.contains model = true)
    (hp : dmem "prompt" params = true)
    (hok : aliyunValidate supported model params = Except.ok d) :
    ∃ v2, aliyunStepN (aliyunStepSize (dset params "model" (Value.str model))) = Except.ok v2 ∧
      aliyunStepSeed (aliyunStepRef
        (setDefault (setDefault v2 "negative_prompt" (Value.str "")) "style"
          (Value.str "<auto>"))) = Except.ok d := by
  rw [aliyunValidate, hs, hp] at hok
  simp only [Bool.true_eq_false, if_false] at hok
  rcases hN : aliyunStepN (aliyunStepSize (dset params "model" (Value.str model))) with e | v2 <;>
    rw [hN] at hok
  · cases hok
  · exact ⟨v2, rfl, hok⟩

/-- Lookup of a key other than `model`, `size`, `n` is unchanged after the
first two aliyun normalization steps. -/
theorem aliyun_v2_ne (params v2 : Dict) (model : String)
    (hN : aliyunStepN (aliyunStepSize (dset params "model" (Value.str model))) = Except.ok v2)
    {k : String} (h1 : k ≠ "model") (h2 : k ≠ "size") (h3 : k ≠ "n") :
    dget v2 k = dget params k := by
  rw [aliyunStepN_ok_ne _ _ hN h3, dget_stepSize_ne _ h2, dget_dset_ne _ _ (Ne.symm h1)]

/-- Lookup of a key other than the six recognized defaulted keys is unchanged
up to the dict the reference-image step receives. -/
theorem aliyun_v4_ne (params v2 : Dict) (model : String)
    (hN : aliyunStepN (aliyunStepSize (dset params "model" (Value.str model))) = Except.ok v2)
    {k : String} (h1 : k ≠ "model") (h2 : k ≠ "size") (h3 : k ≠ "n")
    (h4 : k ≠ "negative_prompt") (h5 : k ≠ "style") :
    dget (setDefault (setDefault v2 "negative_prompt" (Value.str "")) "style"
      (Value.str "<auto>")) k = dget params k := by
  rw [dget_setDefault_ne _ _ (Ne.symm h5), dget_setDefault_ne _ _ (Ne.symm h4)]
  exact aliyun_v2_ne params v2 model hN h1 h2 h3

/-- Membership version of `aliyun_v4_ne`. -/
theorem aliyun_v4_mem_ne (params v2 : Dict) (model : String)
    (hN : aliyunStepN (aliyunStepSize (dset params "model" (Value.str model))) = Except.ok v2)
    {k : String} (h1 : k ≠ "model") (h2 : k ≠ "size") (h3 : k ≠ "n")
    (h4 : k ≠ "negative_prompt") (h5 : k ≠ "style") :
    dmem k (setDefault (setDefault v2 "negative_prompt" (Value.str "")) "style"
      (Value.str "<auto>")) = dmem k params := by
  simp [dmem, aliyun_v4_ne params v2 model hN h1 h2 h3 h4 h5]

/-- Counterexample for C4: for the input `{prompt: "x"}` the normalized style
default the code stores is the token `"<auto>"`, not the bare string `"auto"`
the claim states. -/
theorem claim4_counterexample :
    ((aliyunValidate aliyunDefaultModels "wanx2.1-t2i-turbo"
        [("prompt", Value.str "x")]).map (fun d => dget d "style"))
      = Except.ok (some (Value.str "<auto>")) ∧
    ¬ ((aliyunValidate aliyunDefaultModels "wanx2.1-t2i-turbo"
        [("prompt", Value.str "x")]).map (fun d => dget d "style"))
      = Except.ok (some (Value.str "auto")) := by
  constructor
  · rfl
  · intro h
    rw [show ((aliyunValidate aliyunDefaultModels "wanx2.1-t2i-turbo"
        [("prompt", Value.str "x")]).map (fun d => dget d "style"))
      = Except.ok (some (Value.str "<auto>")) from rfl] at h
    injection h with h1
    injection h1 with h2
    injection h2 with h3
    exact absurd h3 (by decide)

/-- C4 (amended): for provider A, on any mapping that validates successfully,
size defaults to the `"1024*1024"` token when absent; the image count defaults
to 1 and, when supplied, is `int`-coerced and clamped into [1, 4];
negative_prompt defaults to the empty string; style defaults to the `"<auto>"`
token; a supplied seed is `int`-coerced; and the reference defaults
`ref_strength = 1.0` / `ref_mode = "repaint"` are filled exactly when
`ref_img` is supplied and they are absent — with `ref_img` absent both keys
are left untouched. -/
theorem claim4_aliyun_defaults (supported : List String) (model : String)
    (params d : Dict) (hs : supported.contains model = true)
    (hok : aliyunValidate supported model params = Except.ok d) :
    (dmem "size" params = false → dget d "size" = some (Value.str "1024*1024")) ∧
    (dmem "size" params = true → dget d "size" = dget params "size") ∧
    (dmem "n" params = false → dget d "n" = some (Value.int 1)) ∧
    (∀ v nv, dget params "n" = some v → pyInt v = Except.ok nv →
      dget d "n" = some (Value.int (min (max nv 1) 4))) ∧
    (dmem "negative_prompt" params = false →
      dget d "negative_prompt" = some (Value.str "")) ∧
    (dmem "style" params = false → dget d "style" = some (Value.str "<auto>")) ∧
    (∀ v sv, dget params "seed" = some v → pyInt v = Except.ok sv →
      dget d "seed" = some (Value.int sv)) ∧
    (dmem "seed" params = false → dget d "seed" = Option.none) ∧
    (dmem "ref_img" params = true → dmem "ref_strength" params = false →
      dget d "ref_strength" = some (Value.float 1)) ∧
    (dmem "ref_img" params = true → dmem "ref_mode" params = false →
      dget d "ref_mode" = some (Value.str "repaint")) ∧
    (dmem "ref_img" params = false →
      dget d "ref_strength" = dget params "ref_strength" ∧
      dget d "ref_mode" = dget params "ref_mode") := by
  have hp : dmem "prompt" params = true := by
    by_contra hp
    rw [Bool.not_eq_true] at hp
    rw [aliyunValidate, hs, hp] at hok
    simp at hok
  obtain ⟨v2, hN, hS⟩ := aliyunValidate_ok_decompose supported model params d hs hp hok
  have hd_ne : ∀ k : String, k ≠ "seed" → k ≠ "ref_strength" → k ≠ "ref_mode" →
      k ≠ "model" → k ≠ "size" → k ≠ "n" → k ≠ "negative_prompt" → k ≠ "style" →
      dget d k = dget params k := by
    intro k e1 e2 e3 e4 e5 e6 e7 e8
    rw [aliyunStepSeed_ok_ne _ _ hS e1, dget_stepRef_ne _ e2 e3]
    exact aliyun_v4_ne params v2 model hN e4 e5 e6 e7 e8
  have hmem_ref : dmem "ref_img" (setDefault (setDefault v2 "negative_prompt" (Value.str ""))
      "style" (Value.str "<auto>")) = dmem "ref_img" params :=
    aliyun_v4_mem_ne params v2 model hN (by decide) (by decide) (by decide) (by decide)
      (by decide)
  refine ⟨?_, ?_, ?_, ?_, ?_, ?_, ?_, ?_, ?_, ?_, ?_⟩
  · intro habs
    rw [aliyunStepSeed_ok_ne _ _ hS (by decide), dget_stepRef_ne _ (by decide) (by decide),
      dget_setDefault_ne _ _ (by decide), dget_setDefault_ne _ _ (by decide),
      aliyunStepN_ok_ne _ _ hN (by decide)]
    exact dget_stepSize_absent _ (by rw [dmem_dset_ne _ _ (by decide)]; exact habs)
  · intro hpres
    rw [aliyunStepSeed_ok_ne _ _ hS (by decide), dget_stepRef_ne _ (by decide) (by decide),
      dget_setDefault_ne _ _ (by decide), dget_setDefault_ne _ _ (by decide),
      aliyunStepN_ok_ne _ _ hN (by decide),
      dget_stepSize_present _ (by rw [dmem_dset_ne _ _ (by decide)]; exact hpres)]
    exact dget_dset_ne _ _ (by decide)
  · intro habs
    have habs' : dmem "n" (aliyunStepSize (dset params "model" (Value.str model))) = false := by
      rw [dmem_stepSize_ne _ (by decide), dmem_dset_ne _ _ (by decide)]
      exact habs
    rw [aliyunStepN_absent _ habs'] at hN
    injection hN with hv2
    rw [aliyunStepSeed_ok_ne _ _ hS (by decide), dget_stepRef_ne _ (by decide) (by decide),
      dget_setDefault_ne _ _ (by decide), dget_setDefault_ne _ _ (by decide), ← hv2]
    exact dget_dset_self _ _ _
  · intro v nv hv hpy
    have hv' : dget (aliyunStepSize (dset params "model" (Value.str model))) "n" = some v := by
      rw [dget_stepSize_ne _ (by decide), dget_dset_ne _ _ (by decide)]
      exact hv
    rw [aliyunStepN_present _ v hv', hpy] at hN
    simp only [Except.map] at hN
    injection hN with hv2
    rw [aliyunStepSeed_ok_ne _ _ hS (by decide), dget_stepRef_ne _ (by decide) (by decide),
      dget_setDefault_ne _ _ (by decide), dget_setDefault_ne _ _ (by decide), ← hv2]
    exact dget_dset_self _ _ _
  · intro habs
    rw [aliyunStepSeed_ok_ne _ _ hS (by decide), dget_stepRef_ne _ (by decide) (by decide),
      dget_setDefault_ne _ _ (by decide)]
    exact dget_setDefault_absent _ _ _ (by
      rw [aliyunStepN_ok_mem_ne _ _ hN (by decide), dmem_stepSize_ne _ (by decide),
        dmem_dset_ne _ _ (by decide)]
      exact habs)
  · intro habs
    rw [aliyunStepSeed_ok_ne _ _ hS (by decide)]
    rw [dget_stepRef_ne _ (by decide) (by decide)]
    exact dget_setDefault_absent _ _ _ (by
      rw [dmem_setDefault_ne _ _ (by decide), aliyunStepN_ok_mem_ne _ _ hN (by decide),
        dmem_stepSize_ne _ (by decide), dmem_dset_ne _ _ (by decide)]
      exact habs)
  · intro v sv hv hpy
    have hv5 : dget (aliyunStepRef (setDefault (setDefault v2 "negative_prompt" (Value.str ""))
        "style" (Value.str "<auto>"))) "seed" = some v := by
      rw [dget_stepRef_ne _ (by decide) (by decide)]
      rw [aliyun_v4_ne params v2 model hN (by decide) (by decide) (by decide) (by decide)
        (by decide)]
      exact hv
    rw [aliyunStepSeed_present _ v hv5, hpy] at hS
    simp only [Except.map] at hS
    injection hS with hd
    rw [← hd]
    exact dget_dset_self _ _ _
  · intro habs
    have hv5 : dmem "seed" (aliyunStepRef (setDefault (setDefault v2 "negative_prompt"
        (Value.str "")) "style" (Value.str "<auto>"))) = false := by
      rw [dmem_stepRef_ne _ (by decide) (by decide)]
      rw [aliyun_v4_mem_ne params v2 model hN (by decide) (by decide) (by decide) (by decide)
        (by decide)]
      exact habs
    rw [aliyunStepSeed_absent _ hv5] at hS
    injection hS with hd
    rw [← hd]
    rcases hg : dget (aliyunStepRef (setDefault (setDefault v2 "negative_prompt"
        (Value.str "")) "style" (Value.str "<auto>"))) "seed" with _ | v
    · rfl
    · rw [dmem, hg] at hv5
      simp at hv5
  · intro himg habs
    rw [aliyunStepSeed_ok_ne _ _ hS (by decide)]
    rw [dget_stepRef_strength_absent _ (by rw [hmem_ref]; exact himg) (by
      rw [aliyun_v4_mem_ne params v2 model hN (by decide) (by decide) (by decide) (by decide)
        (by decide)]
      exact habs)]
  · intro himg habs
    rw [aliyunStepSeed_ok_ne _ _ hS (by decide)]
    rw [dget_stepRef_mode_absent _ (by rw [hmem_ref]; exact himg) (by
      rw [aliyun_v4_mem_ne params v2 model hN (by decide) (by decide) (by decide) (by decide)
        (by decide)]
      exact habs)]
  · intro himg
    constructor
    · rw [aliyunStepSeed_ok_ne _ _ hS (by decide), dget_stepRef_noimg _ (by
        rw [hmem_ref]; exact himg)]
      exact aliyun_v4_ne params v2 model hN (by decide) (by decide) (by decide) (by decide)
        (by decide)
    · rw [aliyunStepSeed_ok_ne _ _ hS (by decide), dget_stepRef_noimg _ (by
        rw [hmem_ref]; exact himg)]
      exact aliyun_v4_ne params v2 model hN (by decide) (by decide) (by decide) (by decide)
        (by decide)

/-- Witness for C4: `{prompt: "x", n: 9}` validates with `n` clamped to 4 and
style defaulted to `"<auto>"`. -/
theorem claim4_aliyun_defaults_witness :
    dget [("prompt", Value.str "x"), ("n", Value.int 4),
       ("model", Value.str "wanx2.1-t2i-turbo"), ("size", Value.str "1024*1024"),
       ("negative_prompt", Value.str ""), ("style", Value.str "<auto>")] "n"
      = some (Value.int 4) ∧
    dget [("prompt", Value.str "x"), ("n", Value.int 4),
       ("model", Value.str "wanx2.1-t2i-turbo"), ("size", Value.str "1024*1024"),
       ("negative_prompt", Value.str ""), ("style", Value.str "<auto>")] "style"
      = some (Value.str "<auto>") := by
  have h := claim4_aliyun_defaults aliyunDefaultModels "wanx2.1-t2i-turbo"
    [("prompt", Value.str "x"), ("n", Value.int 9)]
    [("prompt", Value.str "x"), ("n", Value.int 4),
     ("model", Value.str "wanx2.1-t2i-turbo"), ("size", Value.str "1024*1024"),
     ("negative_prompt", Value.str ""), ("style", Value.str "<auto>")]
    (by decide) (by rfl)
  constructor
  · have hn := h.2.2.2.1 (Value.int 9) 9 rfl rfl
    simpa using hn
  · exact h.2.2.2.2.2.1 rfl

theorem mem_dkeys_dset (d : Dict) (k a : String) (v : Value) :
    a ∈ dkeys (dset d k v) → a ∈ dkeys d ∨ a = k := by
  induction d with
  | nil =>
      intro h
      simp [dset, dkeys] at h
      exact Or.inr h
  | cons hd tl ih =>
      simp only [dset]
      split
      · next heq =>
          intro h
          simp only [dkeys, List.map_cons, List.mem_cons] at h ⊢
          tauto
      · intro h
        simp only [dkeys, List.map_cons, List.mem_cons] at h ⊢
        rcases h with h | h
        · tauto
        · rcases ih h with h' | h' <;> tauto

theorem dkeys_nodup_dset (d : Dict) (k : String) (v : Value) (h : (dkeys d).Nodup) :
    (dkeys (dset d k v)).Nodup := by
  induction d with
  | nil => simp [dset, dkeys]
  | cons hd tl ih =>
      simp only [dkeys, List.map_cons, List.nodup_cons] at h
      simp only [dset]
      split
      · next heq =>
          simp only [dkeys, List.map_cons, List.nodup_cons]
          refine ⟨?_, h.2⟩
          rw [← heq]
          exact h.1
      · next hne =>
          simp only [dkeys, List.map_cons, List.nodup_cons]
          refine ⟨?_, ih h.2⟩
          intro hmem
          rcases mem_dkeys_dset tl k hd.1 v hmem with h' | h'
          · exact h.1 h'
          · exact hne h'

theorem dkeys_nodup_setDefault (d : Dict) (k : String) (v : Value)
    (h : (dkeys d).Nodup) : (dkeys (setDefault d k v)).Nodup := by
  unfold setDefault
  split
  · exact dkeys_nodup_dset d k v h
  · exact h

theorem dkeys_nodup_stepSize (d : Dict) (h : (dkeys d).Nodup) :
    (dkeys (aliyunStepSize d)).Nodup := by
  unfold aliyunStepSize
  split <;> exact dkeys_nodup_dset d _ _ h

theorem dkeys_nodup_stepN (d w : Dict) (hok : aliyunStepN d = Except.ok w)
    (h : (dkeys d).Nodup) : (dkeys w).Nodup := by
  unfold aliyunStepN at hok
  split at hok
  · rcases hpy : pyInt (dgetD d "n" Value.none) with e | nv <;> rw [hpy] at hok
    · simp [Except.map] at hok
    · simp only [Except.map] at hok
      cases hok
      exact dkeys_nodup_dset d _ _ h
  · cases hok
    exact dkeys_nodup_dset d _ _ h

theorem dkeys_nodup_stepRef (d : Dict) (h : (dkeys d).Nodup) :
    (dkeys (aliyunStepRef d)).Nodup := by
  unfold aliyunStepRef
  split
  · exact dkeys_nodup_setDefault _ _ _ (dkeys_nodup_setDefault _ _ _ h)
  · exact h

theorem dkeys_nodup_stepSeed (d w : Dict) (hok : aliyunStepSeed d = Except.ok w)
    (h : (dkeys d).Nodup) : (dkeys w).Nodup := by
  unfold aliyunStepSeed at hok
  split at hok
  · rcases hpy : pyInt (dgetD d "seed" Value.none) with e | sv <;> rw [hpy] at hok
    · simp [Except.map] at hok
    · simp only [Except.map] at hok
      cases hok
      exact dkeys_nodup_dset d _ _ h
  · cases hok
    exact h

theorem aliyunValidate_ok_nodup (supported : List String) (model : String)
    (params d : Dict) (hs : supported.contains model = true)
    (hp : dmem "prompt" params = true)
    (hok : aliyunValidate supported model params = Except.ok d)
    (hnd : (dkeys params).Nodup) : (dkeys d).Nodup := by
  obtain ⟨v2, hN, hS⟩ := aliyunValidate_ok_decompose supported model params d hs hp hok
  exact dkeys_nodup_stepSeed _ _ hS (dkeys_nodup_stepRef _
    (dkeys_nodup_setDefault _ _ _ (dkeys_nodup_setDefault _ _ _
      (dkeys_nodup_stepN _ _ hN (dkeys_nodup_stepSize _ (dkeys_nodup_dset _ _ _ hnd))))))

theorem dmem_iff_mem_dkeys (d : Dict) (k : String) : dmem k d = true ↔ k ∈ dkeys d := by
  induction d with
  | nil => simp [dmem, dget, dkeys]
  | cons hd tl ih =>
      simp only [dkeys, List.map_cons, List.mem_cons]
      constructor
      · intro h
        rw [dmem, dget] at h
        split at h
        · next heq => exact Or.inl heq.symm
        · exact Or.inr (ih.mp h)
      · intro h
        rcases h with h | h
        · rw [dmem, dget, if_pos h.symm]
          rfl
        · rw [dmem, dget]
          split
          · rfl
          · exact ih.mpr h

/-- Lookup in the dict built by the pass-through loop of
`AliyunProvider.call_model` (lines 187-190): an input key passing the filter
keeps its input value; everything else falls back to the accumulator. -/
theorem dget_aliyunCustomFold (d : Dict) (k : String) (hnd : (dkeys d).Nodup) :
    ∀ acc : Dict,
    dget (d.foldl (fun a kv =>
      if (aliyunExcludeKeys.contains kv.1 || aliyunSpecialParams.contains kv.1) = false
      then dset a kv.1 kv.2 else a) acc) k
    = if ((aliyunExcludeKeys.contains k || aliyunSpecialParams.contains k) = false
          ∧ dmem k d = true)
      then dget d k else dget acc k := by
  induction d with
  | nil =>
      intro acc
      rw [if_neg (by simp [dmem, dget])]
      rfl
  | cons hd tl ih =>
      intro acc
      simp only [dkeys, List.map_cons, List.nodup_cons] at hnd
      simp only [List.foldl_cons]
      rw [ih hnd.2]
      by_cases h1 : hd.1 = k
      · subst h1
        by_cases h3 : dmem hd.1 tl = true
        · exact absurd ((dmem_iff_mem_dkeys tl hd.1).mp h3) hnd.1
        · rw [Bool.not_eq_true] at h3
          rw [if_neg (by simp [h3])]
          by_cases h2 : (aliyunExcludeKeys.contains hd.1
              || aliyunSpecialParams.contains hd.1) = false
          · rw [if_pos h2, dget_dset_self,
              if_pos ⟨h2, by simp [dmem, dget]⟩, dget, if_pos rfl]
          · rw [if_neg h2, if_neg (by
              intro hcon
              exact h2 hcon.1)]
      · have hmemc : dmem k (hd :: tl) = dmem k tl := by
          rw [dmem, dget, if_neg h1]
          rfl
        have hgetc : dget (hd :: tl) k = dget tl k := by
          rw [dget, if_neg h1]
        rw [hmemc, hgetc]
        by_cases hcond : ((aliyunExcludeKeys.contains k
            || aliyunSpecialParams.contains k) = false ∧ dmem k tl = true)
        · rw [if_pos hcond, if_pos hcond]
        · rw [if_neg hcond, if_neg hcond]
          split
          · exact dget_dset_ne _ _ h1
          · rfl

/-- C5: for provider A, a caller-supplied key outside the ten recognized keys
reaches the `parameters` object of the vendor request body verbatim, with its
original value: normalization never removes it and the request builder copies
it through. -/
theorem claim5_passthrough (supported : List String) (model : String) (params d : Dict)
    (hs : supported.contains model = true)
    (hok : aliyunValidate supported model params = Except.ok d)
    (hnd : (dkeys params).Nodup)
    (k : String) (hk : k ∉ aliyunRecognizedKeys) (v : Value)
    (hv : dget params k = some v) :
    dget (aliyunBuildRequestData d).parameters k = some v := by
  have hp : dmem "prompt" params = true := by
    by_contra hp
    rw [Bool.not_eq_true] at hp
    rw [aliyunValidate, hs, hp] at hok
    simp at hok
  have e1 : k ≠ "model" := fun h => hk (by rw [h]; decide)
  have e2 : k ≠ "size" := fun h => hk (by rw [h]; decide)
  have e3 : k ≠ "n" := fun h => hk (by rw [h]; decide)
  have e4 : k ≠ "negative_prompt" := fun h => hk (by rw [h]; decide)
  have e5 : k ≠ "style" := fun h => hk (by rw [h]; decide)
  have e6 : k ≠ "seed" := fun h => hk (by rw [h]; decide)
  have e7 : k ≠ "ref_strength" := fun h => hk (by rw [h]; decide)
  have e8 : k ≠ "ref_mode" := fun h => hk (by rw [h]; decide)
  have e9 : k ≠ "prompt" := fun h => hk (by rw [h]; decide)
  have e10 : k ≠ "ref_img" := fun h => hk (by rw [h]; decide)
  obtain ⟨v2, hN, hS⟩ := aliyunValidate_ok_decompose supported model params d hs hp hok
  have hdk : dget d k = some v := by
    rw [aliyunStepSeed_ok_ne _ _ hS e6, dget_stepRef_ne _ e7 e8,
      aliyun_v4_ne params v2 model hN e1 e2 e3 e4 e5]
    exact hv
  have hdnd : (dkeys d).Nodup := aliyunValidate_ok_nodup supported model params d hs hp hok hnd
  have hcont : (aliyunExcludeKeys.contains k || aliyunSpecialParams.contains k) = false := by
    rw [Bool.or_eq_false_iff]
    constructor
    · by_contra hc
      rw [Bool.not_eq_false] at hc
      have hm : k ∈ aliyunExcludeKeys := by
        have := List.elem_iff.mp hc
        exact this
      apply hk
      simp only [aliyunExcludeKeys, List.mem_cons, List.not_mem_nil, or_false] at hm
      rcases hm with h | h | h | h <;> (rw [h]; decide)
    · by_contra hc
      rw [Bool.not_eq_false] at hc
      have hm : k ∈ aliyunSpecialParams := by
        have := List.elem_iff.mp hc
        exact this
      apply hk
      simp only [aliyunSpecialParams, List.mem_cons, List.not_mem_nil, or_false] at hm
      rcases hm with h | h | h | h | h | h <;> (rw [h]; decide)
  unfold aliyunBuildRequestData
  simp only []
  rw [dget_aliyunCustomFold d k hdnd]
  rw [if_pos ⟨hcont, by rw [dmem, hdk]; rfl⟩]
  exact hdk

/-- Witness for C5: the unrecognized caller key `foo` survives into the vendor
request's `parameters` object with its original value. -/
theorem claim5_passthrough_witness :
    dget (aliyunBuildRequestData
      [("prompt", Value.str "x"), ("foo", Value.int 42),
       ("model", Value.str "wanx2.1-t2i-turbo"), ("size", Value.str "1024*1024"),
       ("n", Value.int 1), ("negative_prompt", Value.str ""),
       ("style", Value.str "<auto>")]).parameters "foo" = some (Value.int 42) := by
  exact claim5_passthrough aliyunDefaultModels "wanx2.1-t2i-turbo"
    [("prompt", Value.str "x"), ("foo", Value.int 42)]
    [("prompt", Value.str "x"), ("foo", Value.int 42),
     ("model", Value.str "wanx2.1-t2i-turbo"), ("size", Value.str "1024*1024"),
     ("n", Value.int 1), ("negative_prompt", Value.str ""),
     ("style", Value.str "<auto>")]
    (by decide) (by rfl) (by decide) "foo" (by decide) (Value.int 42) (by rfl)

theorem aliyunValidate_unsupported (supported : List String) (model : String)
    (params : Dict) (h : supported.contains model = false) :
    aliyunValidate supported model params = Except.error (unsupportedModelMsg model supported) := by
  rw [aliyunValidate, if_pos h]

theorem liblibValidate_unsupported (supported : List String) (model : String)
    (params : Dict) (h : supported.contains model = false) :
    liblibValidate supported model params = Except.error (unsupportedModelMsg model supported) := by
  rw [liblibValidate, if_pos h]

theorem aliyunValidate_missing_prompt (supported : List String) (model : String)
    (params : Dict) (hs : supported.contains model = true)
    (hp : dmem "prompt" params = false) :
    aliyunValidate supported model params = Except.error "Parameter \x27prompt\x27 is required" := by
  rw [aliyunValidate, hs]
  simp only [Bool.true_eq_false, if_false]
  rw [if_pos hp]

theorem aliyunValidate_error_pyInt (supported : List String) (model : String)
    (params : Dict) (e : String) (hs : supported.contains model = true)
    (hp : dmem "prompt" params = true)
    (he : aliyunValidate supported model params = Except.error e) :
    ∃ v, pyInt v = Except.error e := by
  rw [aliyunValidate, hs, hp] at he
  simp only [Bool.true_eq_false, if_false] at he
  rcases hN : aliyunStepN (aliyunStepSize (dset params "model" (Value.str model))) with
    e' | v2 <;> rw [hN] at he
  · injection he with h'
    rw [← h']
    exact aliyunStepN_error _ _ hN
  · exact aliyunStepSeed_error _ _ he

theorem pyInt_error_length (v : Value) (e : String) (h : pyInt v = Except.error e) :
    40 ≤ e.length := by
  rcases v with s | n | q | b | f | l | _
  · rw [show pyInt (Value.str s) = (match s.trim.toInt? with
        | some n => Except.ok n
        | Option.none =>
            Except.error ("invalid literal for int() with base 10: " ++ s)) from rfl] at h
    rcases ht : s.trim.toInt? with _ | n <;> rw [ht] at h
    · injection h with h'
      rw [← h', String.length_append]
      have h40 : ("invalid literal for int() with base 10: " : String).length = 40 := by decide
      omega
    · cases h
  · rw [show pyInt (Value.int n) = Except.ok n from rfl] at h
    cases h
  · rw [show pyInt (Value.float q) = Except.ok (ratTrunc q) from rfl] at h
    cases h
  · rw [show pyInt (Value.bool b) = Except.ok (if b then 1 else 0) from rfl] at h
    cases h
  · rw [show pyInt (Value.obj f) = Except.error
        "int() argument must be a string, a bytes-like object or a real number" from rfl] at h
    injection h with h'
    rw [← h']
    decide
  · rw [show pyInt (Value.list l) = Except.error
        "int() argument must be a string, a bytes-like object or a real number" from rfl] at h
    injection h with h'
    rw [← h']
    decide
  · rw [show pyInt Value.none = Except.error
        "int() argument must be a string, a bytes-like object or a real number" from rfl] at h
    injection h with h'
    rw [← h']
    decide

theorem getObj_error (v : Value) (e : String) (h : getObj v = Except.error e) :
    e = "TypeError: generateParams is not a dict" := by
  rcases v with s | n | q | b | f | l | _
  · injection (show Except.error "TypeError: generateParams is not a dict"
        = Except.error e from h) with h'
    exact h'.symm
  · injection (show Except.error "TypeError: generateParams is not a dict"
        = Except.error e from h) with h'
    exact h'.symm
  · injection (show Except.error "TypeError: generateParams is not a dict"
        = Except.error e from h) with h'
    exact h'.symm
  · injection (show Except.error "TypeError: generateParams is not a dict"
        = Except.error e from h) with h'
    exact h'.symm
  · exact absurd (show Except.ok f = Except.error e from h) (by simp)
  · injection (show Except.error "TypeError: generateParams is not a dict"
        = Except.error e from h) with h'
    exact h'.symm
  · injection (show Except.error "TypeError: generateParams is not a dict"
        = Except.error e from h) with h'
    exact h'.symm

theorem baseModelTypeLower_error (d : Dict) (e : String)
    (h : baseModelTypeLower d = Except.error e) :
    e = "AttributeError: object has no attribute lower" := by
  rw [baseModelTypeLower] at h
  rcases hg : dget d "baseModelType" with _ | v <;> rw [hg] at h
  · cases h
  · rcases v with s | n | q | b | f | l | _
    · exact absurd (show Except.ok s.toLower = Except.error e from h) (by simp)
    · injection (show Except.error "AttributeError: object has no attribute lower"
          = Except.error e from h) with h'
      exact h'.symm
    · injection (show Except.error "AttributeError: object has no attribute lower"
          = Except.error e from h) with h'
      exact h'.symm
    · injection (show Except.error "AttributeError: object has no attribute lower"
          = Except.error e from h) with h'
      exact h'.symm
    · injection (show Except.error "AttributeError: object has no attribute lower"
          = Except.error e from h) with h'
      exact h'.symm
    · injection (show Except.error "AttributeError: object has no attribute lower"
          = Except.error e from h) with h'
      exact h'.symm
    · injection (show Except.error "AttributeError: object has no attribute lower"
          = Except.error e from h) with h'
      exact h'.symm

theorem liblibCustomTemplate_error (validated gp : Dict) (e : String)
    (h : liblibCustomTemplate validated gp = Except.error e) :
    e = "AttributeError: object has no attribute lower" := by
  rw [liblibCustomTemplate] at h
  split at h
  · rcases hb : baseModelTypeLower validated with e' | bmt <;> rw [hb] at h
    · injection h with h'
      rw [← h']
      exact baseModelTypeLower_error validated e' hb
    · cases h
  · cases h

theorem liblibValidate_t2i_missing (sup : List String) (p : Dict)
    (hs : sup.contains "star-3-alpha-t2i" = true) (hp : dmem "prompt" p = false) :
    liblibValidate sup "star-3-alpha-t2i" p =
      Except.error "Parameter \x27prompt\x27 is required for Star-3 Alpha text-to-image" := by
  simp only [liblibValidate, hs, Bool.true_eq_false, if_false, if_true]
  rw [dmem_dset_ne p (Value.str "star-3-alpha-t2i") (show "model" ≠ "prompt" by decide)]
  rw [if_pos hp]

theorem liblibValidate_t2i_error (sup : List String) (p : Dict) (e : String)
    (hs : sup.contains "star-3-alpha-t2i" = true) (hp : dmem "prompt" p = true)
    (he : liblibValidate sup "star-3-alpha-t2i" p = Except.error e) :
    e = "TypeError: generateParams is not a dict" := by
  simp only [liblibValidate, hs, Bool.true_eq_false, if_false, if_true] at he
  rw [dmem_dset_ne p (Value.str "star-3-alpha-t2i") (show "model" ≠ "prompt" by decide),
    hp] at he
  simp only [Bool.true_eq_false, if_false] at he
  rcases hobj : getObj (dgetD (setDefault (dset p "model" (Value.str "star-3-alpha-t2i"))
      "generateParams" (Value.obj [])) "generateParams" Value.none) with e' | gp0 <;>
    rw [hobj] at he
  · injection he with h'
    rw [← h']
    exact getObj_error _ _ hobj
  · cases he

theorem liblibValidate_i2i_missing_prompt (sup : List String) (p : Dict)
    (hs : sup.contains "star-3-alpha-i2i" = true) (hp : dmem "prompt" p = false) :
    liblibValidate sup "star-3-alpha-i2i" p =
      Except.error "Parameter \x27prompt\x27 is required for Star-3 Alpha image-to-image" := by
  simp only [liblibValidate, hs, Bool.true_eq_false, if_false, if_true]
  rw [if_neg (by decide)]
  rw [dmem_dset_ne p (Value.str "star-3-alpha-i2i") (show "model" ≠ "prompt" by decide)]
  rw [if_pos hp]

theorem liblibValidate_i2i_missing_source (sup : List String) (p : Dict)
    (hs : sup.contains "star-3-alpha-i2i" = true) (hp : dmem "prompt" p = true)
    (hsi : dmem "sourceImage" p = false) :
    liblibValidate sup "star-3-alpha-i2i" p =
      Except.error "Parameter \x27sourceImage\x27 is required for Star-3 Alpha image-to-image" := by
  simp only [liblibValidate, hs, Bool.true_eq_false, if_false, if_true]
  rw [if_neg (by decide)]
  rw [dmem_dset_ne p (Value.str "star-3-alpha-i2i") (show "model" ≠ "prompt" by decide), hp]
  simp only [Bool.true_eq_false, if_false]
  rw [dmem_dset_ne p (Value.str "star-3-alpha-i2i") (show "model" ≠ "sourceImage" by decide)]
  rw [if_pos hsi]

theorem liblibValidate_i2i_error (sup : List String) (p : Dict) (e : String)
    (hs : sup.contains "star-3-alpha-i2i" = true) (hp : dmem "prompt" p = true)
    (hsi : dmem "sourceImage" p = true)
    (he : liblibValidate sup "star-3-alpha-i2i" p = Except.error e) :
    e = "TypeError: generateParams is not a dict" := by
  simp only [liblibValidate, hs, Bool.true_eq_false, if_false, if_true] at he
  rw [if_neg (by decide)] at he
  rw [dmem_dset_ne p (Value.str "star-3-alpha-i2i") (show "model" ≠ "prompt" by decide),
    hp] at he
  simp only [Bool.true_eq_false, if_false] at he
  rw [dmem_dset_ne p (Value.str "star-3-alpha-i2i") (show "model" ≠ "sourceImage" by decide),
    hsi] at he
  simp only [Bool.true_eq_false, if_false] at he
  rcases hobj : getObj (dgetD (setDefault (dset p "model" (Value.str "star-3-alpha-i2i"))
      "generateParams" (Value.obj [])) "generateParams" Value.none) with e' | gp0 <;>
    rw [hobj] at he
  · injection he with h'
    rw [← h']
    exact getObj_error _ _ hobj
  · cases he

theorem liblibValidate_custom_missing_checkpoint (sup : List String) (p : Dict)
    (hs : sup.contains "liblib-custom" = true) (hc : dmem "checkPointId" p = false) :
    liblibValidate sup "liblib-custom" p =
      Except.error "Parameter \x27checkPointId\x27 is required for LiblibAI custom model" := by
  simp only [liblibValidate, hs, Bool.true_eq_false, if_false, if_true]
  rw [if_neg (by decide), if_neg (by decide)]
  rw [dmem_dset_ne p (Value.str "liblib-custom") (show "model" ≠ "checkPointId" by decide)]
  rw [if_pos hc]

theorem liblibValidate_custom_missing_prompt (sup : List String) (p : Dict)
    (hs : sup.contains "liblib-custom" = true) (hc : dmem "checkPointId" p = true)
    (hp : dmem "prompt" p = false) :
    liblibValidate sup "liblib-custom" p =
      Except.error "Parameter \x27prompt\x27 is required for LiblibAI custom model" := by
  simp only [liblibValidate, hs, Bool.true_eq_false, if_false, if_true]
  rw [if_neg (by decide), if_neg (by decide)]
  rw [dmem_dset_ne p (Value.str "liblib-custom") (show "model" ≠ "checkPointId" by decide), hc]
  simp only [Bool.true_eq_false, if_false]
  rw [dmem_dset_ne p (Value.str "liblib-custom") (show "model" ≠ "prompt" by decide)]
  rw [if_pos hp]

theorem liblibValidate_custom_error (sup : List String) (p : Dict) (e : String)
    (hs : sup.contains "liblib-custom" = true) (hc : dmem "checkPointId" p = true)
    (hp : dmem "prompt" p = true)
    (he : liblibValidate sup "liblib-custom" p = Except.error e) :
    e = "TypeError: generateParams is not a dict" ∨
    e = "AttributeError: object has no attribute lower" := by
  simp only [liblibValidate, hs, Bool.true_eq_false, if_false, if_true] at he
  rw [if_neg (by decide), if_neg (by decide)] at he
  rw [dmem_dset_ne p (Value.str "liblib-custom") (show "model" ≠ "checkPointId" by decide),
    hc] at he
  simp only [Bool.true_eq_false, if_false] at he
  rw [dmem_dset_ne p (Value.str "liblib-custom") (show "model" ≠ "prompt" by decide),
    hp] at he
  simp only [Bool.true_eq_false, if_false] at he
  rcases hobj : getObj (dgetD (setDefault (dset p "model" (Value.str "liblib-custom"))
      "generateParams" (Value.obj [])) "generateParams" Value.none) with e' | gp0 <;>
    rw [hobj] at he
  · injection he with h'
    rw [← h']
    exact Or.inl (getObj_error _ _ hobj)
  · exact Or.inr (liblibCustomTemplate_error _ _ _ he)

/-- C3: for both providers, a model outside the provider's supported list makes
validation fail with the unsupported-model error; with a supported model,
validation fails with an error naming a missing required key exactly when such
a key is absent (A: prompt; B t2i: prompt; B i2i: prompt and sourceImage; B
custom: checkPointId and prompt), the named key really being absent; and a
validation failure propagates unchanged through the request-preparation
prefix of `call_model`, so no vendor request is ever built from it. -/
theorem claim3_validation_errors :
    (∀ (sup : List String) (m : String) (p : Dict), sup.contains m = false →
      aliyunValidate sup m p = Except.error (unsupportedModelMsg m sup) ∧
      liblibValidate sup m p = Except.error (unsupportedModelMsg m sup)) ∧
    (∀ (sup : List String) (m : String) (p : Dict), sup.contains m = true →
      (aliyunValidate sup m p = Except.error "Parameter \x27prompt\x27 is required"
        ↔ dmem "prompt" p = false)) ∧
    (∀ (sup : List String) (p : Dict), sup.contains "star-3-alpha-t2i" = true →
      (liblibValidate sup "star-3-alpha-t2i" p =
          Except.error "Parameter \x27prompt\x27 is required for Star-3 Alpha text-to-image"
        ↔ dmem "prompt" p = false)) ∧
    (∀ (sup : List String) (p : Dict), sup.contains "star-3-alpha-i2i" = true →
      ((liblibValidate sup "star-3-alpha-i2i" p =
          Except.error "Parameter \x27prompt\x27 is required for Star-3 Alpha image-to-image" ∨
        liblibValidate sup "star-3-alpha-i2i" p =
          Except.error
            "Parameter \x27sourceImage\x27 is required for Star-3 Alpha image-to-image")
        ↔ (dmem "prompt" p = false ∨ dmem "sourceImage" p = false)) ∧
      (liblibValidate sup "star-3-alpha-i2i" p =
          Except.error "Parameter \x27prompt\x27 is required for Star-3 Alpha image-to-image" →
        dmem "prompt" p = false) ∧
      (liblibValidate sup "star-3-alpha-i2i" p =
          Except.error
            "Parameter \x27sourceImage\x27 is required for Star-3 Alpha image-to-image" →
        dmem "sourceImage" p = false)) ∧
    (∀ (sup : List String) (p : Dict), sup.contains "liblib-custom" = true →
      ((liblibValidate sup "liblib-custom" p =
          Except.error "Parameter \x27checkPointId\x27 is required for LiblibAI custom model" ∨
        liblibValidate sup "liblib-custom" p =
          Except.error "Parameter \x27prompt\x27 is required for LiblibAI custom model")
        ↔ (dmem "checkPointId" p = false ∨ dmem "prompt" p = false)) ∧
      (liblibValidate sup "liblib-custom" p =
          Except.error "Parameter \x27checkPointId\x27 is required for LiblibAI custom model" →
        dmem "checkPointId" p = false) ∧
      (liblibValidate sup "liblib-custom" p =
          Except.error "Parameter \x27prompt\x27 is required for LiblibAI custom model" →
        dmem "prompt" p = false)) ∧
    (∀ (sup : List String) (m : String) (p : Dict) (e : String),
      aliyunValidate sup m p = Except.error e →
      aliyunPrepareRequest sup m p = Except.error e) ∧
    (∀ (sup : List String) (m : String) (p : Dict) (e : String),
      liblibValidate sup m p = Except.error e →
      liblibPrepareRequest sup m p = Except.error e) := by
  refine ⟨?_, ?_, ?_, ?_, ?_, ?_, ?_⟩
  · intro sup m p h
    exact ⟨aliyunValidate_unsupported sup m p h, liblibValidate_unsupported sup m p h⟩
  · intro sup m p hs
    constructor
    · intro he
      by_contra hp
      rw [Bool.not_eq_false] at hp
      obtain ⟨v, hpy⟩ := aliyunValidate_error_pyInt sup m p _ hs hp he
      have hlen := pyInt_error_length v _ hpy
      have h30 : ("Parameter \x27prompt\x27 is required" : String).length = 30 := by decide
      omega
    · intro hp
      exact aliyunValidate_missing_prompt sup m p hs hp
  · intro sup p hs
    constructor
    · intro he
      by_contra hp
      rw [Bool.not_eq_false] at hp
      have := liblibValidate_t2i_error sup p _ hs hp he
      exact absurd this (by decide)
    · intro hp
      exact liblibValidate_t2i_missing sup p hs hp
  · intro sup p hs
    refine ⟨⟨?_, ?_⟩, ?_, ?_⟩
    · intro he
      by_cases hp : dmem "prompt" p = true
      · by_cases hsi : dmem "sourceImage" p = true
        · rcases he with he | he
          · exact absurd (liblibValidate_i2i_error sup p _ hs hp hsi he) (by decide)
          · exact absurd (liblibValidate_i2i_error sup p _ hs hp hsi he) (by decide)
        · rw [Bool.not_eq_true] at hsi
          exact Or.inr hsi
      · rw [Bool.not_eq_true] at hp
        exact Or.inl hp
    · intro h
      rcases h with h | h
      · exact Or.inl (liblibValidate_i2i_missing_prompt sup p hs h)
      · by_cases hp : dmem "prompt" p = true
        · exact Or.inr (liblibValidate_i2i_missing_source sup p hs hp h)
        · rw [Bool.not_eq_true] at hp
          exact Or.inl (liblibValidate_i2i_missing_prompt sup p hs hp)
    · intro he
      by_contra hp
      rw [Bool.not_eq_false] at hp
      by_cases hsi : dmem "sourceImage" p = true
      · exact absurd (liblibValidate_i2i_error sup p _ hs hp hsi he) (by decide)
      · rw [Bool.not_eq_true] at hsi
        have h2 := liblibValidate_i2i_missing_source sup p hs hp hsi
        rw [he] at h2
        injection h2 with h3
        exact absurd h3 (by decide)
    · intro he
      by_contra hsi
      rw [Bool.not_eq_false] at hsi
      by_cases hp : dmem "prompt" p = true
      · exact absurd (liblibValidate_i2i_error sup p _ hs hp hsi he) (by decide)
      · rw [Bool.not_eq_true] at hp
        have h2 := liblibValidate_i2i_missing_prompt sup p hs hp
        rw [he] at h2
        injection h2 with h3
        exact absurd h3 (by decide)
  · intro sup p hs
    refine ⟨⟨?_, ?_⟩, ?_, ?_⟩
    · intro he
      by_cases hc : dmem "checkPointId" p = true
      · by_cases hp : dmem "prompt" p = true
        · rcases he with he | he
          · rcases liblibValidate_custom_error sup p _ hs hc hp he with h | h <;>
              exact absurd h (by decide)
          · rcases liblibValidate_custom_error sup p _ hs hc hp he with h | h <;>
              exact absurd h (by decide)
        · rw [Bool.not_eq_true] at hp
          exact Or.inr hp
      · rw [Bool.not_eq_true] at hc
        exact Or.inl hc
    · intro h
      rcases h with h | h
      · exact Or.inl (liblibValidate_custom_missing_checkpoint sup p hs h)
      · by_cases hc : dmem "checkPointId" p = true
        · exact Or.inr (liblibValidate_custom_missing_prompt sup p hs hc h)
        · rw [Bool.not_eq_true] at hc
          exact Or.inl (liblibValidate_custom_missing_checkpoint sup p hs hc)
    · intro he
      by_contra hc
      rw [Bool.not_eq_false] at hc
      by_cases hp : dmem "prompt" p = true
      · rcases liblibValidate_custom_error sup p _ hs hc hp he with h | h <;>
          exact absurd h (by decide)
      · rw [Bool.not_eq_true] at hp
        have h2 := liblibValidate_custom_missing_prompt sup p hs hc hp
        rw [he] at h2
        injection h2 with h3
        exact absurd h3 (by decide)
    · intro he
      by_contra hp
      rw [Bool.not_eq_false] at hp
      by_cases hc : dmem "checkPointId" p = true
      · rcases liblibValidate_custom_error sup p _ hs hc hp he with h | h <;>
          exact absurd h (by decide)
      · rw [Bool.not_eq_true] at hc
        have h2 := liblibValidate_custom_missing_checkpoint sup p hs hc
        rw [he] at h2
        injection h2 with h3
        exact absurd h3 (by decide)
  · intro sup m p e h
    rw [aliyunPrepareRequest, h]
    rfl
  · intro sup m p e h
    rw [liblibPrepareRequest, h]
    rfl

/-- Witness for C3: an unsupported model is rejected with the unsupported-model
error; a supported aliyun model without `prompt` is rejected naming `prompt`; a
liblibai image-to-image call without `sourceImage` is rejected naming a missing
key; and the rejected aliyun request never reaches request building. -/
theorem claim3_validation_errors_witness :
    aliyunValidate aliyunDefaultModels "gpt-4" [] =
      Except.error (unsupportedModelMsg "gpt-4" aliyunDefaultModels) ∧
    aliyunValidate aliyunDefaultModels "wanx2.1-t2i-turbo" [] =
      Except.error "Parameter \x27prompt\x27 is required" ∧
    (liblibValidate liblibDefaultModels "star-3-alpha-i2i" [("prompt", Value.str "x")] =
        Except.error "Parameter \x27prompt\x27 is required for Star-3 Alpha image-to-image" ∨
      liblibValidate liblibDefaultModels "star-3-alpha-i2i" [("prompt", Value.str "x")] =
        Except.error
          "Parameter \x27sourceImage\x27 is required for Star-3 Alpha image-to-image") ∧
    aliyunPrepareRequest aliyunDefaultModels "gpt-4" [] =
      Except.error (unsupportedModelMsg "gpt-4" aliyunDefaultModels) := by
  refine ⟨(claim3_validation_errors.1 aliyunDefaultModels "gpt-4" [] (by decide)).1, ?_, ?_, ?_⟩
  · exact (claim3_validation_errors.2.1 aliyunDefaultModels "wanx2.1-t2i-turbo" []
      (by decide)).mpr rfl
  · exact ((claim3_validation_errors.2.2.2.1 liblibDefaultModels
      [("prompt", Value.str "x")] (by decide)).1).mpr (Or.inr rfl)
  · exact claim3_validation_errors.2.2.2.2.2.1 aliyunDefaultModels "gpt-4" [] _
      ((claim3_validation_errors.1 aliyunDefaultModels "gpt-4" [] (by decide)).1)

theorem setDefault_present_eq (d : Dict) (k : String) (v : Value) (h : dmem k d = true) :
    setDefault d k v = d := by
  rw [setDefault, h]
  simp

theorem liblibStepAspect_present (gp : Dict)
    (h : dmem "aspectRatio" gp = true ∨ dmem "imageSize" gp = true) :
    liblibStepAspect gp = gp := by
  rw [liblibStepAspect]
  rcases h with h | h <;> rw [if_neg (by simp [h])]

/-- C6: the scenario `model = star-3-alpha-t2i`, `parameters = {prompt: "a cat"}`
normalizes to `generateParams.prompt = "a cat"`, `generateParams.aspectRatio =
"portrait"`, `generateParams.imgCount = 1` and the fixed text-to-image
template `"5d7e67009b344550bc1aa6ccbfa1d7f4"`; and in general the aspect-ratio
default is applied only when the caller's `generateParams` contains neither
`aspectRatio` nor `imageSize` — when one of them is present, the `aspectRatio`
entry is carried over unchanged. -/
theorem claim6_star3_t2i :
    (liblibValidate liblibDefaultModels "star-3-alpha-t2i" [("prompt", Value.str "a cat")]
      = Except.ok
        [("prompt", Value.str "a cat"), ("model", Value.str "star-3-alpha-t2i"),
         ("generateParams", Value.obj
           [("prompt", Value.str "a cat"), ("aspectRatio", Value.str "portrait"),
            ("imgCount", Value.int 1)]),
         ("templateUuid", Value.str star3T2iTemplate)]) ∧
    (∀ (sup : List String) (p d gp : Dict),
      sup.contains "star-3-alpha-t2i" = true →
      dget p "generateParams" = some (Value.obj gp) →
      (dmem "aspectRatio" gp = true ∨ dmem "imageSize" gp = true) →
      liblibValidate sup "star-3-alpha-t2i" p = Except.ok d →
      ∃ gp', dget d "generateParams" = some (Value.obj gp') ∧
        dget gp' "aspectRatio" = dget gp "aspectRatio") := by
  constructor
  · rfl
  · intro sup p d gp hs hgp har hok
    have hp : dmem "prompt" p = true := by
      by_contra hp
      rw [Bool.not_eq_true] at hp
      rw [liblibValidate_t2i_missing sup p hs hp] at hok
      cases hok
    simp only [liblibValidate, hs, Bool.true_eq_false, if_false, if_true] at hok
    rw [dmem_dset_ne p (Value.str "star-3-alpha-t2i") (show "model" ≠ "prompt" by decide),
      hp] at hok
    simp only [Bool.true_eq_false, if_false] at hok
    have hgpmem : dmem "generateParams" (dset p "model" (Value.str "star-3-alpha-t2i"))
        = true := by
      rw [dmem_dset_ne p (Value.str "star-3-alpha-t2i") (by decide), dmem, hgp]
      rfl
    rw [setDefault_present_eq _ _ _ hgpmem] at hok
    have hget : dgetD (dset p "model" (Value.str "star-3-alpha-t2i")) "generateParams"
        Value.none = Value.obj gp := by
      rw [dgetD, dget_dset_ne p (Value.str "star-3-alpha-t2i") (by decide), hgp]
      rfl
    rw [hget] at hok
    rw [show getObj (Value.obj gp) = Except.ok gp from rfl] at hok
    simp only [] at hok
    have haspect : liblibStepAspect (setDefault gp "prompt"
        (dgetD (dset p "model" (Value.str "star-3-alpha-t2i")) "prompt" Value.none))
        = setDefault gp "prompt"
          (dgetD (dset p "model" (Value.str "star-3-alpha-t2i")) "prompt" Value.none) := by
      apply liblibStepAspect_present
      rcases har with h | h
      · exact Or.inl (by rw [dmem_setDefault_ne _ _ (by decide)]; exact h)
      · exact Or.inr (by rw [dmem_setDefault_ne _ _ (by decide)]; exact h)
    rw [haspect] at hok
    injection hok with hd
    refine ⟨setDefault (setDefault gp "prompt"
      (dgetD (dset p "model" (Value.str "star-3-alpha-t2i")) "prompt" Value.none))
      "imgCount" (Value.int 1), ?_, ?_⟩
    · rw [← hd, dget_setDefault_ne _ _ (by decide), dget_dset_self]
    · rw [dget_setDefault_ne _ _ (by decide), dget_setDefault_ne _ _ (by decide)]

/-- Witness for C6: a caller-supplied `generateParams` already carrying an
`aspectRatio` keeps it verbatim. -/
theorem claim6_star3_t2i_witness :
    dget [("aspectRatio", Value.str "square"), ("prompt", Value.str "x"),
      ("imgCount", Value.int 1)] "aspectRatio"
      = dget [("aspectRatio", Value.str "square")] "aspectRatio" := by
  obtain ⟨gp', h1, h2⟩ := claim6_star3_t2i.2 liblibDefaultModels
    [("prompt", Value.str "x"),
     ("generateParams", Value.obj [("aspectRatio", Value.str "square")])]
    [("prompt", Value.str "x"),
     ("generateParams", Value.obj
       [("aspectRatio", Value.str "square"), ("prompt", Value.str "x"),
        ("imgCount", Value.int 1)]),
     ("model", Value.str "star-3-alpha-t2i"),
     ("templateUuid", Value.str star3T2iTemplate)]
    [("aspectRatio", Value.str "square")]
    (by decide) (by rfl) (Or.inl (by rfl)) (by rfl)
  have hobj : Value.obj [("aspectRatio", Value.str "square"), ("prompt", Value.str "x"),
      ("imgCount", Value.int 1)] = Value.obj gp' := by
    have h1' := h1
    rw [show dget [("prompt", Value.str "x"),
      ("generateParams", Value.obj
        [("aspectRatio", Value.str "square"), ("prompt", Value.str "x"),
         ("imgCount", Value.int 1)]),
      ("model", Value.str "star-3-alpha-t2i"),
      ("templateUuid", Value.str star3T2iTemplate)] "generateParams"
      = some (Value.obj [("aspectRatio", Value.str "square"), ("prompt", Value.str "x"),
          ("imgCount", Value.int 1)]) from rfl] at h1'
    injection h1'
  injection hobj with hgp
  rw [hgp]
  exact h2

theorem dget_customGp_ne (validated gp0 : Dict) {k : String}
    (h1 : k ≠ "checkPointId") (h2 : k ≠ "prompt") (h3 : k ≠ "sampler") (h4 : k ≠ "steps")
    (h5 : k ≠ "cfgScale") (h6 : k ≠ "width") (h7 : k ≠ "height") (h8 : k ≠ "imgCount")
    (h9 : k ≠ "seed") :
    dget (liblibCustomGp validated gp0) k = dget gp0 k := by
  unfold liblibCustomGp
  rw [dget_setDefault_ne _ _ (Ne.symm h9), dget_setDefault_ne _ _ (Ne.symm h8),
    dget_setDefault_ne _ _ (Ne.symm h7), dget_setDefault_ne _ _ (Ne.symm h6),
    dget_setDefault_ne _ _ (Ne.symm h5), dget_setDefault_ne _ _ (Ne.symm h4),
    dget_setDefault_ne _ _ (Ne.symm h3), dget_setDefault_ne _ _ (Ne.symm h2),
    dget_setDefault_ne _ _ (Ne.symm h1)]

theorem dmem_customGp_ne (validated gp0 : Dict) {k : String}
    (h1 : k ≠ "checkPointId") (h2 : k ≠ "prompt") (h3 : k ≠ "sampler") (h4 : k ≠ "steps")
    (h5 : k ≠ "cfgScale") (h6 : k ≠ "width") (h7 : k ≠ "height") (h8 : k ≠ "imgCount")
    (h9 : k ≠ "seed") :
    dmem k (liblibCustomGp validated gp0) = dmem k gp0 := by
  simp [dmem, dget_customGp_ne validated gp0 h1 h2 h3 h4 h5 h6 h7 h8 h9]

theorem dget_customGp_sampler (validated gp0 : Dict) (h : dmem "sampler" gp0 = false) :
    dget (liblibCustomGp validated gp0) "sampler" = some (Value.int 15) := by
  unfold liblibCustomGp
  simp +decide [dget_setDefault_ne, dget_setDefault_absent, dmem_setDefault_ne, h]

theorem dget_customGp_steps (validated gp0 : Dict) (h : dmem "steps" gp0 = false) :
    dget (liblibCustomGp validated gp0) "steps" = some (Value.int 20) := by
  unfold liblibCustomGp
  simp +decide [dget_setDefault_ne, dget_setDefault_absent, dmem_setDefault_ne, h]

theorem dget_customGp_cfgScale (validated gp0 : Dict) (h : dmem "cfgScale" gp0 = false) :
    dget (liblibCustomGp validated gp0) "cfgScale" = some (Value.int 7) := by
  unfold liblibCustomGp
  simp +decide [dget_setDefault_ne, dget_setDefault_absent, dmem_setDefault_ne, h]

theorem dget_customGp_width (validated gp0 : Dict) (h : dmem "width" gp0 = false) :
    dget (liblibCustomGp validated gp0) "width" = some (Value.int 768) := by
  unfold liblibCustomGp
  simp +decide [dget_setDefault_ne, dget_setDefault_absent, dmem_setDefault_ne, h]

theorem dget_customGp_height (validated gp0 : Dict) (h : dmem "height" gp0 = false) :
    dget (liblibCustomGp validated gp0) "height" = some (Value.int 1024) := by
  unfold liblibCustomGp
  simp +decide [dget_setDefault_ne, dget_setDefault_absent, dmem_setDefault_ne, h]

theorem dget_customGp_imgCount (validated gp0 : Dict) (h : dmem "imgCount" gp0 = false) :
    dget (liblibCustomGp validated gp0) "imgCount" = some (Value.int 1) := by
  unfold liblibCustomGp
  simp +decide [dget_setDefault_ne, dget_setDefault_absent, dmem_setDefault_ne, h]

theorem dget_customGp_seed (validated gp0 : Dict) (h : dmem "seed" gp0 = false) :
    dget (liblibCustomGp validated gp0) "seed" = some (Value.int (-1)) := by
  unfold liblibCustomGp
  simp +decide [dget_setDefault_ne, dget_setDefault_absent, dmem_setDefault_ne, h]

theorem baseModelTypeLower_congr (d1 d2 : Dict)
    (h : dget d1 "baseModelType" = dget d2 "baseModelType") :
    baseModelTypeLower d1 = baseModelTypeLower d2 := by
  rw [baseModelTypeLower, baseModelTypeLower, h]

/-- C7: for `liblib-custom` with `checkPointId` and `prompt` present and
`templateUuid` absent, normalization fills sampler=15, steps=20, cfgScale=7,
width=768, height=1024, imgCount=1, seed=-1 into `generateParams` whenever the
caller's `generateParams` lacks them, and sets `templateUuid` to exactly one
of the four fixed identifiers chosen by whether `baseModelType` lowers to the
F.1 family and whether `generateParams` carries a `sourceImage`. -/
theorem claim7_custom_defaults (sup : List String) (p d gp : Dict) (bmt : String)
    (hs : sup.contains "liblib-custom" = true)
    (hgp : dget p "generateParams" = some (Value.obj gp) ∨
      (dmem "generateParams" p = false ∧ gp = []))
    (htpl : dmem "templateUuid" p = false)
    (hb : baseModelTypeLower p = Except.ok bmt)
    (hok : liblibValidate sup "liblib-custom" p = Except.ok d) :
    ∃ gp', dget d "generateParams" = some (Value.obj gp') ∧
      (dmem "sampler" gp = false → dget gp' "sampler" = some (Value.int 15)) ∧
      (dmem "steps" gp = false → dget gp' "steps" = some (Value.int 20)) ∧
      (dmem "cfgScale" gp = false → dget gp' "cfgScale" = some (Value.int 7)) ∧
      (dmem "width" gp = false → dget gp' "width" = some (Value.int 768)) ∧
      (dmem "height" gp = false → dget gp' "height" = some (Value.int 1024)) ∧
      (dmem "imgCount" gp = false → dget gp' "imgCount" = some (Value.int 1)) ∧
      (dmem "seed" gp = false → dget gp' "seed" = some (Value.int (-1))) ∧
      dget d "templateUuid" = some (Value.str
        (if dmem "sourceImage" gp then
          (if bmt = "f.1" || bmt = "f1" then customF1I2iTemplate else customI2iTemplate)
        else
          (if bmt = "f.1" || bmt = "f1" then customF1T2iTemplate else customT2iTemplate))) := by
  have hc : dmem "checkPointId" p = true := by
    by_contra hc
    rw [Bool.not_eq_true] at hc
    rw [liblibValidate_custom_missing_checkpoint sup p hs hc] at hok
    cases hok
  have hp : dmem "prompt" p = true := by
    by_contra hp
    rw [Bool.not_eq_true] at hp
    rw [liblibValidate_custom_missing_prompt sup p hs hc hp] at hok
    cases hok
  simp only [liblibValidate, hs, Bool.true_eq_false, if_false, if_true] at hok
  rw [if_neg (by decide), if_neg (by decide)] at hok
  rw [dmem_dset_ne p (Value.str "liblib-custom") (show "model" ≠ "checkPointId" by decide),
    hc] at hok
  simp only [Bool.true_eq_false, if_false] at hok
  rw [dmem_dset_ne p (Value.str "liblib-custom") (show "model" ≠ "prompt" by decide),
    hp] at hok
  simp only [Bool.true_eq_false, if_false] at hok
  have hG : dgetD (setDefault (dset p "model" (Value.str "liblib-custom")) "generateParams"
      (Value.obj [])) "generateParams" Value.none = Value.obj gp := by
    rcases hgp with h | ⟨h, rfl⟩
    · rw [setDefault_present_eq _ _ _ (by
        rw [dmem_dset_ne _ _ (by decide), dmem, h]; rfl)]
      rw [dgetD, dget_dset_ne _ _ (by decide), h]
      rfl
    · rw [dgetD, dget_setDefault_absent _ _ _ (by
        rw [dmem_dset_ne _ _ (by decide)]; exact h)]
      rfl
  rw [hG, show getObj (Value.obj gp) = Except.ok gp from rfl] at hok
  simp only [] at hok
  have htplVG : dmem "templateUuid" (dset (setDefault (dset p "model"
      (Value.str "liblib-custom")) "generateParams" (Value.obj [])) "generateParams"
      (Value.obj (liblibCustomGp (setDefault (dset p "model" (Value.str "liblib-custom"))
        "generateParams" (Value.obj [])) gp))) = false := by
    rw [dmem_dset_ne _ _ (by decide), dmem_setDefault_ne _ _ (by decide),
      dmem_dset_ne _ _ (by decide)]
    exact htpl
  rw [liblibCustomTemplate, if_pos htplVG] at hok
  have hbVG : baseModelTypeLower (dset (setDefault (dset p "model"
      (Value.str "liblib-custom")) "generateParams" (Value.obj [])) "generateParams"
      (Value.obj (liblibCustomGp (setDefault (dset p "model" (Value.str "liblib-custom"))
        "generateParams" (Value.obj [])) gp))) = Except.ok bmt := by
    rw [baseModelTypeLower_congr _ p (by
      rw [dget_dset_ne _ _ (by decide), dget_setDefault_ne _ _ (by decide),
        dget_dset_ne _ _ (by decide)])]
    exact hb
  rw [hbVG] at hok
  simp only [] at hok
  injection hok with hd
  have hsrc : dmem "sourceImage" (liblibCustomGp (setDefault (dset p "model"
      (Value.str "liblib-custom")) "generateParams" (Value.obj [])) gp)
      = dmem "sourceImage" gp :=
    dmem_customGp_ne _ _ (by decide) (by decide) (by decide) (by decide) (by decide)
      (by decide) (by decide) (by decide) (by decide)
  refine ⟨liblibCustomGp (setDefault (dset p "model" (Value.str "liblib-custom"))
    "generateParams" (Value.obj [])) gp, ?_, ?_, ?_, ?_, ?_, ?_, ?_, ?_, ?_⟩
  · rw [← hd, dget_dset_ne _ _ (by decide), dget_dset_self]
  · intro h
    exact dget_customGp_sampler _ _ h
  · intro h
    exact dget_customGp_steps _ _ h
  · intro h
    exact dget_customGp_cfgScale _ _ h
  · intro h
    exact dget_customGp_width _ _ h
  · intro h
    exact dget_customGp_height _ _ h
  · intro h
    exact dget_customGp_imgCount _ _ h
  · intro h
    exact dget_customGp_seed _ _ h
  · rw [← hd, dget_dset_self, hsrc]

/-- Witness for C7: `{checkPointId: "ck", prompt: "x"}` fills steps=20 and the
1.5/XL text-to-image template. -/
theorem claim7_custom_defaults_witness :
    dget [("checkPointId", Value.str "ck"), ("prompt", Value.str "x"),
      ("sampler", Value.int 15), ("steps", Value.int 20), ("cfgScale", Value.int 7),
      ("width", Value.int 768), ("height", Value.int 1024), ("imgCount", Value.int 1),
      ("seed", Value.int (-1))] "steps" = some (Value.int 20) ∧
    dget [("checkPointId", Value.str "ck"), ("prompt", Value.str "x"),
      ("model", Value.str "liblib-custom"),
      ("generateParams", Value.obj
        [("checkPointId", Value.str "ck"), ("prompt", Value.str "x"),
         ("sampler", Value.int 15), ("steps", Value.int 20), ("cfgScale", Value.int 7),
         ("width", Value.int 768), ("height", Value.int 1024), ("imgCount", Value.int 1),
         ("seed", Value.int (-1))]),
      ("templateUuid", Value.str customT2iTemplate)] "templateUuid"
      = some (Value.str customT2iTemplate) := by
  obtain ⟨gp', h1, _, hsteps, _, _, _, _, _, htpl'⟩ :=
    claim7_custom_defaults liblibDefaultModels
      [("checkPointId", Value.str "ck"), ("prompt", Value.str "x")]
      [("checkPointId", Value.str "ck"), ("prompt", Value.str "x"),
       ("model", Value.str "liblib-custom"),
       ("generateParams", Value.obj
         [("checkPointId", Value.str "ck"), ("prompt", Value.str "x"),
          ("sampler", Value.int 15), ("steps", Value.int 20), ("cfgScale", Value.int 7),
          ("width", Value.int 768), ("height", Value.int 1024), ("imgCount", Value.int 1),
          ("seed", Value.int (-1))]),
       ("templateUuid", Value.str customT2iTemplate)]
      [] "" (by decide) (Or.inr ⟨rfl, rfl⟩) (by rfl) (by rfl) (by rfl)
  have hobj : Value.obj [("checkPointId", Value.str "ck"), ("prompt", Value.str "x"),
      ("sampler", Value.int 15), ("steps", Value.int 20), ("cfgScale", Value.int 7),
      ("width", Value.int 768), ("height", Value.int 1024), ("imgCount", Value.int 1),
      ("seed", Value.int (-1))] = Value.obj gp' := by
    have h1' := h1
    rw [show dget [("checkPointId", Value.str "ck"), ("prompt", Value.str "x"),
      ("model", Value.str "liblib-custom"),
      ("generateParams", Value.obj
        [("checkPointId", Value.str "ck"), ("prompt", Value.str "x"),
         ("sampler", Value.int 15), ("steps", Value.int 20), ("cfgScale", Value.int 7),
         ("width", Value.int 768), ("height", Value.int 1024), ("imgCount", Value.int 1),
         ("seed", Value.int (-1))]),
      ("templateUuid", Value.str customT2iTemplate)] "generateParams"
      = some (Value.obj [("checkPointId", Value.str "ck"), ("prompt", Value.str "x"),
         ("sampler", Value.int 15), ("steps", Value.int 20), ("cfgScale", Value.int 7),
         ("width", Value.int 768), ("height", Value.int 1024), ("imgCount", Value.int 1),
         ("seed", Value.int (-1))]) from rfl] at h1'
    injection h1'
  injection hobj with hgp
  constructor
  · rw [hgp]
    exact hsteps rfl
  · rw [htpl']
    rfl

theorem aliyun_local_path_ne_empty (a c : String) : a ++ "/images/aliyun/" ++ c ≠ "" := by
  intro h
  have hlen := congrArg String.length h
  rw [String.length_append, String.length_append] at hlen
  have h15 : ("/images/aliyun/" : String).length = 15 := by decide
  have h0 : ("" : String).length = 0 := by decide
  rw [h15, h0] at hlen
  omega

theorem liblib_local_path_ne_empty (a c : String) :
    a ++ "/data/images/liblibai/" ++ c ≠ "" := by
  intro h
  have hlen := congrArg String.length h
  rw [String.length_append, String.length_append] at hlen
  have h22 : ("/data/images/liblibai/" : String).length = 22 := by decide
  have h0 : ("" : String).length = 0 := by decide
  rw [h22, h0] at hlen
  omega

theorem aliyunFormatImagesAux_spec (dataDir : String) (dlOk : Nat → Bool)
    (fname : Nat → String) :
    ∀ results : List Dict, ∀ i,
      (∀ r ∈ results, truthy (some (dgetD r "url" (Value.str ""))) = true) →
      (aliyunFormatImagesAux dataDir dlOk fname i results).length = results.length ∧
      ((aliyunFormatImagesAux dataDir dlOk fname i results).filter
          (fun a => a.local_path == "")).length
        = ((List.range' i results.length).filter (fun j => !dlOk j)).length := by
  intro results
  induction results with
  | nil => intro i _; simp [aliyunFormatImagesAux]
  | cons r rest ih =>
      intro i hurls
      have hr : truthy (some (dgetD r "url" (Value.str ""))) = true :=
        hurls r (List.mem_cons_self r rest)
      have hrest : ∀ x ∈ rest, truthy (some (dgetD x "url" (Value.str ""))) = true :=
        fun x hx => hurls x (List.mem_cons_of_mem r hx)
      have hih := ih (i + 1) hrest
      simp only [aliyunFormatImagesAux]
      rw [if_neg (by simp [hr])]
      constructor
      · simp only [List.length_cons, hih.1]
      · have hrange : List.range' i (rest.length + 1) = i :: List.range' (i + 1) rest.length := by
          simp [List.range'_succ]
        rw [List.length_cons, hrange]
        by_cases hok : dlOk i
        · have hpath : ((dataDir ++ "/images/aliyun/" ++ fname i : String) == "") = false := by
            simp only [beq_eq_false_iff_ne, ne_eq]
            exact aliyun_local_path_ne_empty dataDir (fname i)
          simp only [List.filter_cons, hok, if_pos, hpath]
          simpa [hok] using hih.2
        · have hempty : ((if dlOk i then dataDir ++ "/images/aliyun/" ++ fname i else "") == "")
              = true := by
            simp [hok]
          simp only [List.filter_cons, hempty]
          simp only [Bool.not_eq_true] at hok
          simp [hok, hih.2]

theorem liblibFormatImagesAux_spec (baseDir : String) (dlOk : Nat → Bool)
    (fname : Nat → String) :
    ∀ images : List Dict, ∀ i,
      (∀ r ∈ images, truthy (some (dgetD r "imageUrl" (Value.str ""))) = true) →
      (liblibFormatImagesAux baseDir dlOk fname i images).length = images.length ∧
      ((liblibFormatImagesAux baseDir dlOk fname i images).filter
          (fun a => a.local_path == "")).length
        = ((List.range' i images.length).filter (fun j => !dlOk j)).length := by
  intro images
  induction images with
  | nil => intro i _; simp [liblibFormatImagesAux]
  | cons r rest ih =>
      intro i hurls
      have hr : truthy (some (dgetD r "imageUrl" (Value.str ""))) = true :=
        hurls r (List.mem_cons_self r rest)
      have hrest : ∀ x ∈ rest, truthy (some (dgetD x "imageUrl" (Value.str ""))) = true :=
        fun x hx => hurls x (List.mem_cons_of_mem r hx)
      have hih := ih (i + 1) hrest
      simp only [liblibFormatImagesAux]
      rw [if_neg (by simp [hr])]
      constructor
      · simp only [List.length_cons, hih.1]
      · have hrange : List.range' i (rest.length + 1) = i :: List.range' (i + 1) rest.length := by
          simp [List.range'_succ]
        rw [List.length_cons, hrange]
        by_cases hok : dlOk i
        · have hpath : ((baseDir ++ "/data/images/liblibai/" ++ fname i : String) == "")
              = false := by
            simp only [beq_eq_false_iff_ne, ne_eq]
            exact liblib_local_path_ne_empty baseDir (fname i)
          simp only [List.filter_cons, hok, if_pos, hpath]
          simpa [hok] using hih.2
        · have hempty :
              ((if dlOk i then baseDir ++ "/data/images/liblibai/" ++ fname i else "") == "")
              = true := by
            simp [hok]
          simp only [List.filter_cons, hempty]
          simp only [Bool.not_eq_true] at hok
          simp [hok, hih.2]

/-- Counterexample for C2: a terminal SUCCEEDED aliyun payload whose image list
has length 1 but whose single entry carries an empty URL yields 0 ImageArtifact
entries even though 0 of the 1 downloads failed — the `continue` skips the
entry entirely, so the result does not contain exactly N entries. -/
theorem claim2_counterexample :
    (aliyunFormatImages "/data" (fun _ => true) (fun _ => "a.png")
        [[("url", Value.str "")]]).length = 0 ∧
    ¬ (aliyunFormatImages "/data" (fun _ => true) (fun _ => "a.png")
        [[("url", Value.str "")]]).length = 1 := by
  constructor
  · rfl
  · intro h
    rw [show (aliyunFormatImages "/data" (fun _ => true) (fun _ => "a.png")
        [[("url", Value.str "")]]).length = 0 from rfl] at h
    exact absurd h (by decide)

/-- C2 (amended): for every terminal SUCCEEDED vendor payload whose image list
has length N and in which every entry carries a truthy (nonempty) URL, if M of
the N downloads fail then both materializers still return (no error) a result
with exactly N artifact entries, of which exactly M have an empty local path;
entries with a falsy URL are skipped entirely and produce no artifact. -/
theorem claim2_partial_download :
    (∀ (dataDir : String) (dlOk : Nat → Bool) (fname : Nat → String) (results : List Dict),
      (∀ r ∈ results, truthy (some (dgetD r "url" (Value.str ""))) = true) →
      (aliyunFormatImages dataDir dlOk fname results).length = results.length ∧
      ((aliyunFormatImages dataDir dlOk fname results).filter
          (fun a => a.local_path == "")).length
        = ((List.range results.length).filter (fun j => !dlOk j)).length) ∧
    (∀ (baseDir : String) (dlOk : Nat → Bool) (fname : Nat → String) (images : List Dict),
      (∀ r ∈ images, truthy (some (dgetD r "imageUrl" (Value.str ""))) = true) →
      (liblibFormatImages baseDir dlOk fname images).length = images.length ∧
      ((liblibFormatImages baseDir dlOk fname images).filter
          (fun a => a.local_path == "")).length
        = ((List.range images.length).filter (fun j => !dlOk j)).length) := by
  constructor
  · intro dataDir dlOk fname results hurls
    have h := aliyunFormatImagesAux_spec dataDir dlOk fname results 0 hurls
    rwa [← List.range_eq_range'] at h
  · intro baseDir dlOk fname images hurls
    have h := liblibFormatImagesAux_spec baseDir dlOk fname images 0 hurls
    rwa [← List.range_eq_range'] at h

/-- Witness for C2: two images, the second download failing, yield two
artifacts with exactly one empty local path. -/
theorem claim2_partial_download_witness :
    (aliyunFormatImages "/data" (fun i => i == 0) (fun i => Nat.repr i ++ ".png")
        [[("url", Value.str "u0")], [("url", Value.str "u1")]]).length = 2 ∧
    ((aliyunFormatImages "/data" (fun i => i == 0) (fun i => Nat.repr i ++ ".png")
        [[("url", Value.str "u0")], [("url", Value.str "u1")]]).filter
        (fun a => a.local_path == "")).length = 1 := by
  have h := claim2_partial_download.1 "/data" (fun i => i == 0) (fun i => Nat.repr i ++ ".png")
    [[("url", Value.str "u0")], [("url", Value.str "u1")]]
    (by decide)
  refine ⟨h.1, ?_⟩
  rw [h.2]
  rfl

theorem getD_mem_or (l : List Char) (n : Nat) (d : Char) :
    l.getD n d ∈ l ∨ l.getD n d = d := by
  induction l generalizing n with
  | nil => right; simp [List.getD]
  | cons a t ih =>
      cases n with
      | zero => left; simp [List.getD]
      | succ m =>
          rcases ih m with h | h
          · left; rw [List.getD_cons_succ]; exact List.mem_cons_of_mem a h
          · right; rw [List.getD_cons_succ]; exact h

theorem b64Char_mem (n : Nat) : b64Char n ∈ b64UrlAlphabet := by
  unfold b64Char
  rcases getD_mem_or b64UrlAlphabet n 'A' with h | h
  · exact h
  · rw [h]; decide

theorem b64UrlAlphabet_no_pad : ∀ ch ∈ b64UrlAlphabet, ch ≠ '=' := by decide

theorem b64UrlEncode_structure (bs : List Nat) :
    ∃ body pad, b64UrlEncode bs = body ++ pad ∧ (∀ ch ∈ body, ch ∈ b64UrlAlphabet) ∧
      (pad = [] ∨ pad = ['='] ∨ pad = ['=', '=']) := by
  induction bs using b64UrlEncode.induct with
  | case1 b1 b2 b3 rest ih =>
      rcases ih with ⟨body, pad, heq, hbody, hpad⟩
      refine ⟨b64Char (b1 % 256 / 4) :: b64Char ((b1 % 256 % 4) * 16 + b2 % 256 / 16) ::
        b64Char ((b2 % 256 % 16) * 4 + b3 % 256 / 64) :: b64Char (b3 % 256 % 64) :: body,
        pad, ?_, ?_, hpad⟩
      · simp [b64UrlEncode, heq]
      · intro ch hch
        simp only [List.mem_cons] at hch
        rcases hch with h | h | h | h | h
        · subst h; exact b64Char_mem _
        · subst h; exact b64Char_mem _
        · subst h; exact b64Char_mem _
        · subst h; exact b64Char_mem _
        · exact hbody ch h
  | case2 b1 b2 =>
      refine ⟨[b64Char (b1 % 256 / 4), b64Char ((b1 % 256 % 4) * 16 + b2 % 256 / 16),
        b64Char ((b2 % 256 % 16) * 4)], ['='], rfl, ?_, by simp⟩
      intro ch hch
      simp only [List.mem_cons, List.not_mem_nil, or_false] at hch
      rcases hch with h | h | h <;> (subst h; exact b64Char_mem _)
  | case3 b1 =>
      refine ⟨[b64Char (b1 % 256 / 4), b64Char ((b1 % 256 % 4) * 16)], ['=', '='],
        rfl, ?_, by simp⟩
      intro ch hch
      simp only [List.mem_cons, List.not_mem_nil, or_false] at hch
      rcases hch with h | h <;> (subst h; exact b64Char_mem _)
  | case4 => exact ⟨[], [], rfl, by simp, by simp⟩

theorem dropWhile_append_all {p : Char → Bool} :
    ∀ a b : List Char, (∀ x ∈ a, p x = true) → List.dropWhile p (a ++ b) = List.dropWhile p b := by
  intro a
  induction a with
  | nil => intro b _; rfl
  | cons x t ih =>
      intro b hall
      have hx : p x = true := hall x (List.mem_cons_self x t)
      rw [List.cons_append, List.dropWhile_cons_of_pos hx]
      exact ih b (fun y hy => hall y (List.mem_cons_of_mem x hy))

theorem dropWhile_of_none {p : Char → Bool} :
    ∀ l : List Char, (∀ x ∈ l, p x = false) → List.dropWhile p l = l := by
  intro l hl
  cases l with
  | nil => rfl
  | cons x t =>
      have hx : p x = false := hl x (List.mem_cons_self x t)
      rw [List.dropWhile_cons_of_neg (by simp [hx])]

theorem rstripEq_body_pad (body pad : List Char)
    (hbody : ∀ ch ∈ body, ch ≠ '=')
    (hpad : pad = [] ∨ pad = ['='] ∨ pad = ['=', '=']) :
    rstripEq (body ++ pad) = body := by
  unfold rstripEq
  rw [List.reverse_append]
  rw [dropWhile_append_all pad.reverse body.reverse (by
    intro x hx
    rw [List.mem_reverse] at hx
    rcases hpad with h | h | h <;> subst h <;> simp_all)]
  rw [dropWhile_of_none body.reverse (by
    intro x hx
    rw [List.mem_reverse] at hx
    simpa using hbody x hx)]
  exact List.reverse_reverse body

/-- C8: with both credentials configured, `generate_signature` returns the
access key, the timestamp, the nonce, and as signature the URL-safe base64
encoding — with every trailing padding character removed — of the keyed MAC of
`resourcePath & "&" & timestampMillis & "&" & nonce` under the secret key; the
resulting signature contains only URL-safe alphabet characters and no padding
character at all. With either credential unconfigured it fails with the
missing-credentials error instead. -/
theorem claim8_signature (mac : String → String → List Nat)
    (ak sk ts nonce uri : String) :
    (ak ≠ "" → sk ≠ "" →
      generate_signature mac ak sk ts nonce uri =
        Except.ok
          { accessKey := ak,
            signature :=
              String.mk (rstripEq (b64UrlEncode (mac sk (uri ++ "&" ++ ts ++ "&" ++ nonce)))),
            timestamp := ts, signatureNonce := nonce } ∧
      (∀ ch ∈ rstripEq (b64UrlEncode (mac sk (uri ++ "&" ++ ts ++ "&" ++ nonce))),
        ch ∈ b64UrlAlphabet ∧ ch ≠ '=')) ∧
    ((ak = "" ∨ sk = "") →
      generate_signature mac ak sk ts nonce uri =
        Except.error "LiblibAI API keys not configured") := by
  constructor
  · intro hak hsk
    constructor
    · unfold generate_signature
      rw [if_neg (by simp [String.isEmpty_iff, hak, hsk])]
    · intro ch hch
      rcases b64UrlEncode_structure (mac sk (uri ++ "&" ++ ts ++ "&" ++ nonce)) with
        ⟨body, pad, heq, hbody, hpad⟩
      rw [heq, rstripEq_body_pad body pad
        (fun c hc => b64UrlAlphabet_no_pad c (hbody c hc)) hpad] at hch
      exact ⟨hbody ch hch, b64UrlAlphabet_no_pad ch (hbody ch hch)⟩
  · intro hmiss
    unfold generate_signature
    rw [if_pos (by rcases hmiss with h | h <;> simp [String.isEmpty_iff, h])]

/-- Witness for C8: a concrete MAC oracle and credentials produce the expected
signature record, and missing credentials produce the error. -/
theorem claim8_signature_witness :
    generate_signature (fun _ _ => [0, 1, 2]) "ak" "sk" "12" "n0" "/api" =
      Except.ok { accessKey := "ak", signature := "AAEC",
                  timestamp := "12", signatureNonce := "n0" } ∧
    generate_signature (fun _ _ => [0, 1, 2]) "" "sk" "12" "n0" "/api" =
      Except.error "LiblibAI API keys not configured" := by
  constructor
  · have h := (claim8_signature (fun _ _ => [0, 1, 2]) "ak" "sk" "12" "n0" "/api").1
      (by decide) (by decide)
    rw [h.1]
    rfl
  · exact (claim8_signature (fun _ _ => [0, 1, 2]) "" "sk" "12" "n0" "/api").2 (Or.inl rfl)

/-- C9: the artifact locator serves the flat images directory first, then the
aliyun subdirectory, then the liblibai subdirectory, then the first match of
the recursive search of the whole store, and answers 404 exactly when none of
the three locations contain a match. -/
theorem claim9_artifact_locator (fs : List DataPath) (name : String) :
    (pathExists fs ["images", name] = true →
      download_file fs name = Except.ok ["images", name]) ∧
    (pathExists fs ["images", name] = false →
      pathExists fs ["images", "aliyun", name] = true →
      download_file fs name = Except.ok ["images", "aliyun", name]) ∧
    (pathExists fs ["images", name] = false →
      pathExists fs ["images", "aliyun", name] = false →
      pathExists fs ["images", "liblibai", name] = true →
      download_file fs name = Except.ok ["images", "liblibai", name]) ∧
    (pathExists fs ["images", name] = false →
      pathExists fs ["images", "aliyun", name] = false →
      pathExists fs ["images", "liblibai", name] = false →
      ∀ m ms, globMatches fs name = m :: ms →
      download_file fs name = Except.ok m) ∧
    (download_file fs name = Except.error 404 ↔
      pathExists fs ["images", name] = false ∧
      pathExists fs ["images", "aliyun", name] = false ∧
      pathExists fs ["images", "liblibai", name] = false ∧
      globMatches fs name = []) := by
  refine ⟨?_, ?_, ?_, ?_, ?_⟩
  · intro h1
    simp [download_file, h1]
  · intro h1 h2
    simp [download_file, h1, h2]
  · intro h1 h2 h3
    simp [download_file, h1, h2, h3]
  · intro h1 h2 h3 m ms hg
    simp [download_file, h1, h2, h3, hg]
  · constructor
    · intro h
      by_cases h1 : pathExists fs ["images", name] = true
      · simp [download_file, h1] at h
      · rw [Bool.not_eq_true] at h1
        by_cases h2 : pathExists fs ["images", "aliyun", name] = true
        · simp [download_file, h1, h2] at h
        · rw [Bool.not_eq_true] at h2
          by_cases h3 : pathExists fs ["images", "liblibai", name] = true
          · simp [download_file, h1, h2, h3] at h
          · rw [Bool.not_eq_true] at h3
            cases hg : globMatches fs name with
            | nil => exact ⟨h1, h2, h3, rfl⟩
            | cons m ms => simp [download_file, h1, h2, h3, hg] at h
    · rintro ⟨h1, h2, h3, hg⟩
      simp [download_file, h1, h2, h3, hg]

/-- Witness for C9: a store holding only an aliyun-subdirectory file serves it
from there, and an empty store answers 404. -/
theorem claim9_artifact_locator_witness :
    download_file [["images", "aliyun", "x.png"]] "x.png" =
      Except.ok ["images", "aliyun", "x.png"] ∧
    download_file [] "x.png" = Except.error 404 := by
  constructor
  · exact (claim9_artifact_locator [["images", "aliyun", "x.png"]] "x.png").2.1
      (by decide) (by decide)
  · exact (claim9_artifact_locator [] "x.png").2.2.2.2.mpr ⟨rfl, rfl, rfl, rfl⟩


theorem heap_getD_set_ne (h : Heap) (a b : Nat) (d : Dict) (hne : b ≠ a) :
    (h.set a d).getD b [] = h.getD b [] := by
  induction h generalizing a b with
  | nil => rfl
  | cons x t ih =>
      cases a with
      | zero =>
          cases b with
          | zero => exact absurd rfl hne
          | succ n => rfl
      | succ m =>
          cases b with
          | zero => rfl
          | succ n =>
              simp only [List.set]
              rw [List.getD_cons_succ, List.getD_cons_succ]
              exact ih m n (fun hc => hne (by rw [hc]))

theorem getD_heapSet_ne (h : Heap) (a b : Nat) (k : String) (v : Value) (hne : b ≠ a) :
    (heapSet h a k v).getD b [] = h.getD b [] :=
  heap_getD_set_ne h a b _ hne

theorem getD_append_left (h : Heap) (d : Dict) (b : Nat) (hb : b < h.length) :
    (h ++ [d]).getD b [] = h.getD b [] := by
  induction h generalizing b with
  | nil => exact absurd hb (by simp)
  | cons x t ih =>
      cases b with
      | zero => rfl
      | succ n =>
          simp only [List.cons_append]
          rw [List.getD_cons_succ, List.getD_cons_succ]
          exact ih n (by simpa using hb)

theorem heapStepSize_frame (h : Heap) (va b : Nat) (hne : b ≠ va) :
    (heapStepSize h va).getD b [] = h.getD b [] := by
  unfold heapStepSize
  split <;> exact getD_heapSet_ne h va b _ _ hne

theorem heapSetDefault_frame (h : Heap) (va b : Nat) (k : String) (v : Value)
    (hne : b ≠ va) : (heapSetDefault h va k v).getD b [] = h.getD b [] := by
  unfold heapSetDefault
  split
  · exact getD_heapSet_ne h va b _ _ hne
  · rfl

theorem heapStepRef_frame (h : Heap) (va b : Nat) (hne : b ≠ va) :
    (heapStepRef h va).getD b [] = h.getD b [] := by
  unfold heapStepRef
  split
  · rw [heapSetDefault_frame _ _ _ _ _ hne, heapSetDefault_frame _ _ _ _ _ hne]
  · rfl

theorem heapStepN_frame (h : Heap) (va b : Nat) (hne : b ≠ va) :
    (heapStepN h va).1.getD b [] = h.getD b [] := by
  unfold heapStepN
  split
  · rcases pyInt (dgetD (h.getD va []) "n" Value.none) with e | n
    · rfl
    · exact getD_heapSet_ne h va b _ _ hne
  · exact getD_heapSet_ne h va b _ _ hne

theorem heapStepSeed_frame (h : Heap) (va b : Nat) (hne : b ≠ va) :
    (heapStepSeed h va).1.getD b [] = h.getD b [] := by
  unfold heapStepSeed
  split
  · rcases pyInt (dgetD (h.getD va []) "seed" Value.none) with e | s
    · rfl
    · exact getD_heapSet_ne h va b _ _ hne
  · rfl

/-- C10: `AliyunProvider.validate_parameters` never mutates the caller's
parameter dict: it works on a fresh top-level copy allocated by
`parameters.copy()`, so whether the call returns a validated dict or raises,
the object at the caller's address holds exactly the bindings it held before
the call. -/
theorem claim10_no_mutation (supported : List String) (model : String)
    (h : Heap) (pa : Nat) (hpa : pa < h.length) :
    (aliyunValidateHeap supported model h pa).1.getD pa [] = h.getD pa [] := by
  have hne : pa ≠ h.length := Nat.ne_of_lt hpa
  have hf3 : (heapStepSize (heapSet (h ++ [h.getD pa []]) h.length "model"
      (Value.str model)) h.length).getD pa [] = h.getD pa [] := by
    rw [heapStepSize_frame _ _ _ hne, getD_heapSet_ne _ _ _ _ _ hne,
      getD_append_left _ _ _ hpa]
  unfold aliyunValidateHeap
  split
  · rfl
  split
  · rfl
  simp only []
  rcases hN : heapStepN (heapStepSize (heapSet (h ++ [h.getD pa []]) h.length "model"
      (Value.str model)) h.length) h.length with ⟨h4, e4⟩
  have hf4 : h4.getD pa [] = h.getD pa [] := by
    have h4eq : h4 = (heapStepN (heapStepSize (heapSet (h ++ [h.getD pa []]) h.length
        "model" (Value.str model)) h.length) h.length).1 := by
      rw [hN]
    rw [h4eq, heapStepN_frame _ _ _ hne, hf3]
  cases e4 with
  | error e => exact hf4
  | ok u =>
      simp only []
      rcases hS : heapStepSeed (heapStepRef (heapSetDefault (heapSetDefault h4 h.length
          "negative_prompt" (Value.str "")) h.length "style" (Value.str "<auto>"))
          h.length) h.length with ⟨h8, e8⟩
      have hf8 : h8.getD pa [] = h.getD pa [] := by
        have h8eq : h8 = (heapStepSeed (heapStepRef (heapSetDefault (heapSetDefault h4
            h.length "negative_prompt" (Value.str "")) h.length "style"
            (Value.str "<auto>")) h.length) h.length).1 := by
          rw [hS]
        rw [h8eq, heapStepSeed_frame _ _ _ hne, heapStepRef_frame _ _ _ hne,
          heapSetDefault_frame _ _ _ _ _ hne, heapSetDefault_frame _ _ _ _ _ hne, hf4]
      cases e8 with
      | error e => exact hf8
      | ok u => exact hf8

/-- Witness for C10: a one-object heap holding the caller dict is unchanged at
the caller's address by a successful validation run. -/
theorem claim10_no_mutation_witness :
    (aliyunValidateHeap aliyunDefaultModels "wanx2.1-t2i-turbo"
      [[("prompt", Value.str "x")]] 0).1.getD 0 [] = [("prompt", Value.str "x")] := by
  have hmain := claim10_no_mutation aliyunDefaultModels "wanx2.1-t2i-turbo"
    [[("prompt", Value.str "x")]] 0 (by decide)
  rw [hmain]
  rfl


end ImageService
